import Mathlib

/-!
Shallow embedding of the smart-building compliance checker core
(backend/utils/formulas.py, load_calculator.py, the four member checkers in
beam_checker.py, column_checker.py, slab_checker.py, footing_checker.py, and
the orchestrator backend/api/check_code_new.py).

Python dictionaries become association lists over a leaf-value type, Python
floats become exact rationals, and every place where the Python code can
raise (missing key, float conversion of a non-numeric string, division by
zero) is modelled in the Except monad over an explicit Fault type; the
try/except wrapper of each checker and of the orchestrator is the match that
converts a Fault into the error-carrying result object the source returns.
Calls to math.sqrt on non-constant arguments and the fractional power used
by the wind-height factor are not rational-valued, so they are passed in as
explicit function parameters (sq, hp); every claim proved below holds for
all instantiations of those parameters.
-/

namespace SBC

/-- Leaf value stored in one of the Python dictionaries: a number, a plain
string, or the decimal string form produced by applying str to a float
(which the load calculator writes and float parses back to the same value). -/
inductive PyVal where
  | num (q : ℚ)
  | str (s : String)
  | numStr (q : ℚ)
deriving DecidableEq

/-- A Python dictionary with string keys, in insertion order. -/
abbrev Obj := List (String × PyVal)

/-- Kinds of runtime faults the embedded code can raise. -/
inductive Fault where
  | keyError (k : String)
  | valueError
  | zeroDiv
  | typeError
deriving DecidableEq

/-- Dictionary lookup, mirroring dict.get returning None when absent. -/
def dget (o : Obj) (k : String) : Option PyVal :=
  (o.find? (fun p => p.1 == k)).map (fun p => p.2)

/-- Dictionary update, mirroring assignment d[k] = v: an existing key keeps
its position and gets the new value, a new key is appended at the end. -/
def dset (o : Obj) (k : String) (v : PyVal) : Obj :=
  match o with
  | [] => [(k, v)]
  | p :: rest => if p.1 == k then (k, v) :: rest else p :: dset rest k v

/-- Python float(v): numbers and numeric strings convert, other strings
raise ValueError. -/
def pyFloat : PyVal → Except Fault ℚ
  | .num q => .ok q
  | .numStr q => .ok q
  | .str _ => .error .valueError

/-- Truncation toward zero, the behaviour of Python int() on a float. -/
def pyTrunc (q : ℚ) : ℤ :=
  if 0 ≤ q then ⌊q⌋ else -⌊-q⌋

/-- Python int(v): floats truncate toward zero; the decimal string form of a
float always contains a dot, so int() on it raises ValueError, as does int()
on any other string. -/
def pyInt : PyVal → Except Fault ℤ
  | .num q => .ok (pyTrunc q)
  | .numStr _ => .error .valueError
  | .str _ => .error .valueError

/-- Division raising ZeroDivisionError on a zero divisor. -/
def pyDiv (a b : ℚ) : Except Fault ℚ :=
  if b = 0 then .error .zeroDiv else .ok (a / b)

/-- float(o.get(k, default)) for a numeric default. -/
def getFloatD (o : Obj) (k : String) (dflt : ℚ) : Except Fault ℚ :=
  match dget o k with
  | none => .ok dflt
  | some v => pyFloat v

/-- int(o.get(k, default)) for an integer default. -/
def getIntD (o : Obj) (k : String) (dflt : ℤ) : Except Fault ℤ :=
  match dget o k with
  | none => .ok dflt
  | some v => pyInt v

/-- o.get(k, default) with no conversion. -/
def getRawD (o : Obj) (k : String) (dflt : PyVal) : PyVal :=
  match dget o k with
  | none => dflt
  | some v => v

/-- Using a dictionary value directly in arithmetic: numbers pass through,
strings raise TypeError. -/
def asNum : PyVal → Except Fault ℚ
  | .num q => .ok q
  | .numStr _ => .error .typeError
  | .str _ => .error .typeError

/-- o.get(k, default) used directly in arithmetic. -/
def getNumD (o : Obj) (k : String) (dflt : ℚ) : Except Fault ℚ :=
  match dget o k with
  | none => .ok dflt
  | some v => asNum v

/-- o[k], raising KeyError when the key is absent. -/
def ditem (o : Obj) (k : String) : Except Fault PyVal :=
  match dget o k with
  | none => .error (.keyError k)
  | some v => .ok v

/-- Presence of an optional sub-dictionary, raising KeyError when absent
(Python d[k] on a missing key). -/
def req {α : Type} (k : String) : Option α → Except Fault α
  | none => .error (.keyError k)
  | some a => .ok a

/-- Round-half-to-even at nd decimal digits, the behaviour of round(x, nd). -/
def pyRound (q : ℚ) (nd : ℕ) : ℚ :=
  let s : ℚ := (10 : ℚ) ^ nd
  let m : ℚ := q * s
  let f : ℤ := ⌊m⌋
  let r : ℚ := m - f
  if r < 1/2 then f / s
  else if 1/2 < r then (f + 1) / s
  else if f % 2 = 0 then f / s else (f + 1) / s

/-- round(x, 2). -/
def round2 (q : ℚ) : ℚ := pyRound q 2

/-- round(x, 3). -/
def round3 (q : ℚ) : ℚ := pyRound q 3

/-- The double value of math.pi, used for bar areas. -/
def piQ : ℚ := 3.141592653589793

/-! Material constants and limits (class MaterialConstants, class ISCodeLimits
in formulas.py; class-level tables of LoadCalculator in load_calculator.py). -/
/-- Concrete grades table, fck values. -/
def CONCRETE_GRADES : List (String × ℚ) :=
  [("M15", 15), ("M20", 20), ("M25", 25), ("M30", 30), ("M35", 35), ("M40", 40),
   ("M45", 45), ("M50", 50), ("M55", 55), ("M60", 60)]

/-- Steel grades table, fy values. -/
def STEEL_GRADES : List (String × ℚ) :=
  [("Fe415", 415), ("Fe500", 500), ("Fe550", 550), ("Fe600", 600)]

/-- Concrete density in kN per cubic metre. -/
def CONCRETE_DENSITY : ℚ := 25

/-- Dead load partial factor. -/
def LOAD_FACTOR_DEAD : ℚ := 1.5

/-- Live load partial factor. -/
def LOAD_FACTOR_LIVE : ℚ := 1.5

/-- GRADES.get(grade, default): the grade value is whatever .get returned
from the materials dictionary (or the default grade string); a non-string
never matches a table key. -/
def gradeVal (table : List (String × ℚ)) (v : PyVal) (dflt : ℚ) : ℚ :=
  match v with
  | .str s => (table.lookup s).getD dflt
  | _ => dflt

/-- Material densities table of the load calculator. -/
def MATERIAL_DENSITIES : List (String × ℚ) :=
  [("concrete", 25), ("brick_masonry", 19), ("stone_masonry", 24),
   ("steel", 78.5), ("timber", 6), ("plaster", 20), ("flooring", 23),
   ("waterproofing", 1.5)]

/-- Live loads table of the load calculator, by building use. -/
def LIVE_LOADS : List (String × ℚ) :=
  [("residential", 2), ("office", 3), ("retail", 4), ("industrial", 5),
   ("warehouse", 7.5), ("parking", 2.5), ("corridor", 3), ("stairs", 3),
   ("terrace", 1.5), ("roof", 0.75)]

/-- Basic wind speed table by zone. -/
def WIND_SPEEDS : List (String × ℚ) :=
  [("zone_1", 39), ("zone_2", 44), ("zone_3", 47), ("zone_4", 50),
   ("zone_5", 55), ("zone_6", 60)]

/-! Shared formulas (formulas.py). -/
/-- calculate_design_moment: moment for a simply supported beam under a
uniformly distributed load plus optional point loads (every caller in the
repository passes no point loads). -/
def calculate_design_moment (span udl : ℚ) (point_loads : Option (List (ℚ × ℚ))) :
    Except Fault ℚ := do
  let moment_udl := udl * span ^ 2 / 8
  match point_loads with
  | none => pure (moment_udl + 0)
  | some pls => do
      let mp ← pls.foldlM (fun acc pa => do
        let b := span - pa.2
        let t ← pyDiv (pa.1 * pa.2 * b) span
        pure (acc + max acc t)) (0 : ℚ)
      pure (moment_udl + mp)

/-- calculate_design_shear: shear for a simply supported beam. -/
def calculate_design_shear (span udl : ℚ) (point_loads : Option (List (ℚ × ℚ))) :
    Except Fault ℚ := do
  let shear_udl := udl * span / 2
  match point_loads with
  | none => pure (shear_udl + 0)
  | some pls => do
      let sp := pls.foldl (fun acc pa => acc + pa.1 / 2) (0 : ℚ)
      pure (shear_udl + sp)

/-- The part of calculate_required_area_of_steel after its unit conversion:
the limiting-moment branch between the under-reinforced quadratic and the
simplified over-reinforced approximation, for a moment already in Nmm. -/
def requiredSteelNmm (moment fck fy b d : ℚ) : Except Fault ℚ := do
  let xu_max := 0.48 * d
  let mu_lim := 0.36 * fck * b * xu_max * (d - 0.42 * xu_max)
  if moment ≤ mu_lim then do
    let k ← pyDiv moment (fck * b * d ^ 2)
    let j := 1 - k / 3
    pyDiv moment (0.87 * fy * j * d)
  else
    pyDiv moment (0.87 * fy * 0.9 * d)

/-- calculate_required_area_of_steel: a moment below 1000 is taken to be in
kNm and scaled to Nmm before the branch computation. -/
def calculate_required_area_of_steel (moment fck fy b d : ℚ) : Except Fault ℚ :=
  requiredSteelNmm (if moment < 1000 then moment * 1000000 else moment) fck fy b d

/-- The IS 456 Table 19 shear strength for fck at most 20, by steel
percentage band. -/
def shearTable (pt : ℚ) : ℚ :=
  if pt ≤ 0.15 then 0.28
  else if pt ≤ 0.25 then 0.30
  else if pt ≤ 0.50 then 0.35
  else if pt ≤ 0.75 then 0.39
  else if pt ≤ 1.00 then 0.42
  else if pt ≤ 1.25 then 0.45
  else if pt ≤ 1.50 then 0.48
  else if pt ≤ 1.75 then 0.50
  else if pt ≤ 2.00 then 0.52
  else if pt ≤ 2.25 then 0.54
  else if pt ≤ 2.50 then 0.56
  else if pt ≤ 2.75 then 0.57
  else 0.58

/-- calculate_shear_capacity: table value below M20, scaled linear
approximation above, times the section area. sq embeds math.sqrt. -/
def calculate_shear_capacity (sq : ℚ → ℚ) (b d fck Ast : ℚ) :
    Except Fault ℚ := do
  let pt0 ← if 0 < Ast then pyDiv (100 * Ast) (b * d) else pure 0.15
  let pt := min pt0 3
  let tau_c :=
    if fck ≤ 20 then shearTable pt
    else (0.28 + (pt - 0.15) * 0.02) * sq (fck / 20)
  pure (tau_c * b * d)

/-- calculate_deflection_ratio: basic span-to-depth ratio by support type
(the span argument is unused in the source as well). -/
def calculate_deflection_ratio (_span : ℚ) (loading_type : String) : ℚ :=
  if loading_type = "cantilever" then 7
  else if loading_type = "simply_supported" then 20
  else if loading_type = "continuous" then 26
  else 20

/-- check_minimum_steel: adequacy flag and the minimum required area. -/
def check_minimum_steel (Ast_provided b d fy : ℚ) : Except Fault (Bool × ℚ) := do
  let r ← pyDiv 0.85 fy
  let Ast_min := r * b * d
  pure (decide (Ast_min ≤ Ast_provided), Ast_min)

/-- check_maximum_steel: adequacy flag and the maximum allowed area. -/
def check_maximum_steel (Ast_provided b d : ℚ) : Bool × ℚ :=
  (decide (Ast_provided ≤ 0.04 * b * d), 0.04 * b * d)

/-! Data model: DesignInput and ComplianceResult shapes. -/
/-- Optional building parameters of a design record (keys of the
building_parameters dictionary read by the load calculator). -/
structure BuildingParams where
  building_use : Option String := none
  num_floors : Option ℚ := none
  floor_height : Option ℚ := none
  slab_thickness : Option ℚ := none
  tributary_area : Option ℚ := none
  tributary_width : Option ℚ := none
  wall_load : Option ℚ := none
  wind_area_per_column : Option ℚ := none
deriving DecidableEq

/-- Optional wind parameters of a design record. -/
structure WindParams where
  wind_zone : Option String := none
  terrain_category : Option ℤ := none
  importance_factor : Option ℚ := none
deriving DecidableEq

/-- The wind_calculations audit dictionary returned by calculate_wind_load. -/
structure WindLoadResult where
  basic_wind_speed : ℚ
  terrain_height_factor : ℚ
  topography_factor : ℚ
  design_wind_speed : ℚ
  wind_pressure : ℚ
  height : ℚ
  zone : String
deriving DecidableEq

/-- The load_calculations audit dictionary returned by
calculate_column_axial_load. -/
structure ColumnLoadResult where
  column_self_weight : ℚ
  dead_load_from_floors : ℚ
  total_dead_load : ℚ
  total_live_load : ℚ
  total_wind_load : ℚ
  load_combination_1 : ℚ
  load_combination_2 : ℚ
  load_combination_3 : ℚ
  critical_axial_load : ℚ
  wind_pressure : ℚ
  num_floors : ℚ
  tributary_area : ℚ
deriving DecidableEq

/-- The load_calculations audit dictionary returned by calculate_beam_loads. -/
structure BeamLoadResult where
  beam_self_weight : ℚ
  slab_dead_load : ℚ
  slab_live_load : ℚ
  wall_load : ℚ
  total_dead_load : ℚ
  total_live_load : ℚ
  factored_load : ℚ
  tributary_width : ℚ
deriving DecidableEq

/-- The load_calculations audit dictionary the footing branch of
auto_calculate_loads assembles. -/
structure FootingLoadCalc where
  dead_load_per_floor : ℚ
  live_load_per_floor : ℚ
  total_dead_load : ℚ
  total_live_load : ℚ
  footing_self_weight : ℚ
  num_floors : ℚ
  tributary_area : ℚ
deriving DecidableEq

/-- The per-member-type shape of the load_calculations block written back
into the design record by auto_calculate_loads. -/
inductive LoadAudit where
  | column (lr : ColumnLoadResult)
  | beam (lr : BeamLoadResult)
  | slab (self_weight sidl live_load : Obj)
  | footing (f : FootingLoadCalc)
deriving DecidableEq

/-- The design record handed to check_compliance: the member_type string
plus the optional sub-dictionaries the checkers and the load calculator
index into. -/
structure DesignData where
  member_type : String := ""
  dimensions : Option Obj := none
  materials : Option Obj := none
  reinforcement : Option Obj := none
  loads : Option Obj := none
  building_parameters : Option BuildingParams := none
  wind_parameters : Option WindParams := none
  auto_calculate_loads : Option Bool := none
  load_calculations : Option LoadAudit := none
  wind_calculations : Option WindLoadResult := none
deriving DecidableEq

/-- One named compliance check: its computed quantities, its pass flag and
its code-clause description. -/
structure CheckRec where
  vals : Obj
  pass : Bool
  description : String
deriving DecidableEq

/-- The ordered check mapping of a result. -/
abbrev Checks := List (String × CheckRec)

/-- A successful ComplianceResult as each checker builds it. -/
structure MemberResult where
  member_type : String
  overall_compliance : Bool
  design_summary : Obj
  checks : Checks
  status : String
deriving DecidableEq

/-- The shared result-assembly tail of all four checkers: overall_compliance
is the conjunction of the pass flags and status is PASS exactly on overall
compliance. -/
def mkResult (mt : String) (summary : Obj) (cs : Checks) : MemberResult :=
  let overall := cs.all (fun c => c.2.pass)
  { member_type := mt
    overall_compliance := overall
    design_summary := summary
    checks := cs
    status := if overall then "PASS" else "FAIL" }

/-- What a member checker returns: the result dictionary, or the
error-and-member-type dictionary produced by its except clause. -/
inductive CheckerOutcome where
  | ok (r : MemberResult)
  | err (e : Fault) (member_type : String)
deriving DecidableEq

/-! Beam checker (beam_checker.py). -/
/-- The six beam check records, in source order, from the quantities the
checker body computed. -/
def beamChecks (Ast_required Ast_provided : ℚ) (min_ok : Bool) (Ast_min : ℚ)
    (max_ok : Bool) (Ast_max Vu_n Vc actual_r allowable_r ld available_length : ℚ) :
    Checks :=
  [("flexural_strength",
    ⟨[("required_steel", .num (round2 Ast_required)),
      ("provided_steel", .num (round2 Ast_provided))],
     decide (Ast_required ≤ Ast_provided),
     "Flexural reinforcement adequacy"⟩),
   ("minimum_steel",
    ⟨[("minimum_required", .num (round2 Ast_min)),
      ("provided_steel", .num (round2 Ast_provided))],
     min_ok,
     "Minimum tension reinforcement (IS 456 Cl. 26.5.1.1)"⟩),
   ("maximum_steel",
    ⟨[("maximum_allowed", .num (round2 Ast_max)),
      ("provided_steel", .num (round2 Ast_provided))],
     max_ok,
     "Maximum tension reinforcement (IS 456 Cl. 26.5.1.1)"⟩),
   ("shear_strength",
    ⟨[("design_shear", .num (round2 Vu_n)),
      ("shear_capacity", .num (round2 Vc))],
     decide (Vu_n ≤ Vc),
     "Shear strength without stirrups (IS 456 Cl. 40)"⟩),
   ("deflection",
    ⟨[("actual_span_depth_ratio", .num (round2 actual_r)),
      ("allowable_span_depth_ratio", .num (round2 allowable_r))],
     decide (actual_r ≤ allowable_r),
     "Deflection control (IS 456 Cl. 23.2.1)"⟩),
   ("development_length",
    ⟨[("required_length", .num (round2 ld)),
      ("available_length", .num (round2 available_length))],
     decide (ld ≤ available_length),
     "Development length (IS 456 Cl. 26.2.1)"⟩)]

/-- The beam design_summary dictionary. -/
def beamSummary (span width depth d Mu Vu : ℚ) (cg sg : PyVal) : Obj :=
  [("span", .num span), ("width", .num width), ("depth", .num depth),
   ("effective_depth", .num (round2 d)), ("design_moment", .num (round2 Mu)),
   ("design_shear", .num (round2 Vu)), ("concrete_grade", cg),
   ("steel_grade", sg)]

/-- The try-block body of check_beam_compliance: parameter extraction and
check computation, with every fault surfacing in the Except monad. -/
def beamBody (sq : ℚ → ℚ) (dd : DesignData) : Except Fault (Obj × Checks) := do
  let dims ← req "dimensions" dd.dimensions
  let loads ← req "loads" dd.loads
  let mats ← req "materials" dd.materials
  let reinf ← req "reinforcement" dd.reinforcement
  let lengthV ← getFloatD dims "length" 0
  let span := lengthV * 1000
  let width ← getFloatD dims "breadth" 0
  let depth ← getFloatD dims "depth" 0
  let cover ← getFloatD reinf "cover" 25
  let bar_dia ← getFloatD reinf "bar_diameter" 16
  let d := depth - cover - bar_dia / 2
  let concrete_grade := getRawD mats "concrete_grade" (.str "M20")
  let steel_grade := getRawD mats "steel_grade" (.str "Fe500")
  let fck := gradeVal CONCRETE_GRADES concrete_grade 20
  let fy := gradeVal STEEL_GRADES steel_grade 500
  let dead_load ← getFloatD loads "dead_load" 0
  let live_load ← getFloatD loads "live_load" 0
  let wu := LOAD_FACTOR_DEAD * dead_load + LOAD_FACTOR_LIVE * live_load
  let Mu ← calculate_design_moment (span / 1000) wu none
  let Vu ← calculate_design_shear (span / 1000) wu none
  let Mu_nmm := Mu * 1000000
  let Vu_n := Vu * 1000
  let Ast_required ← calculate_required_area_of_steel Mu_nmm fck fy width d
  let num_bars ← getIntD reinf "num_bars" 2
  let bar_area := piQ * (bar_dia / 2) ^ 2
  let Ast_provided := (num_bars : ℚ) * bar_area
  let mins ← check_minimum_steel Ast_provided width d fy
  let maxs := check_maximum_steel Ast_provided width d
  let Vc ← calculate_shear_capacity sq width d fck Ast_provided
  let basic_r := calculate_deflection_ratio span "simply_supported"
  let actual_r ← pyDiv span d
  -- fs is guarded by the positivity test on its divisor, so the division
  -- cannot raise; the value feeds only the simplified kt = 1.0.
  let _fs : ℚ := if 0 < Ast_provided then 0.58 * fy * Ast_required / Ast_provided
                 else 0.58 * fy
  let kt : ℚ := 1
  let allowable_r := basic_r * kt
  let ld ← pyDiv (bar_dia * fy) (4 * sq fck)
  let available_length := span / 2
  pure (beamSummary span width depth d Mu Vu concrete_grade steel_grade,
        beamChecks Ast_required Ast_provided mins.1 mins.2 maxs.1 maxs.2
          Vu_n Vc actual_r allowable_r ld available_length)

/-- check_beam_compliance with its try/except wrapper. -/
def check_beam_compliance (sq : ℚ → ℚ) (dd : DesignData) : CheckerOutcome :=
  match beamBody sq dd with
  | .ok sc => .ok (mkResult "beam" sc.1 sc.2)
  | .error e => .err e "beam"

/-! Column checker (column_checker.py). -/
/-- The seven column check records, in source order. -/
def columnChecks (width depth fck fy Pu : ℚ) (nb : ℤ) (bar_dia slender Ast : ℚ) :
    Checks :=
  let Ag := width * depth
  let min_dimension := min width depth
  let Ast_min := 0.008 * Ag
  let Ast_max := 0.04 * Ag
  let Pu_max := (0.4 * fck * (Ag - Ast) + 0.67 * fy * Ast) / 1000
  let min_bars : ℤ := if min width depth ≤ 200 then 4 else 6
  let tie_dia := max 6 (bar_dia / 4)
  let tie_spacing := min (min width depth) (min (16 * bar_dia) 300)
  [("minimum_dimension",
    ⟨[("minimum_dimension", .num min_dimension), ("required_minimum", .num 200)],
     decide (200 ≤ min_dimension),
     "Minimum column dimension (IS 456 Cl. 25.1.2)"⟩),
   ("slenderness_ratio",
    ⟨[("slenderness_ratio", .num (round2 slender)), ("maximum_allowed", .num 60)],
     decide (slender ≤ 60),
     "Slenderness ratio (IS 456 Cl. 25.3)"⟩),
   ("minimum_steel",
    ⟨[("minimum_required", .num (round2 Ast_min)), ("provided_steel", .num (round2 Ast))],
     decide (Ast_min ≤ Ast),
     "Minimum longitudinal reinforcement (IS 456 Cl. 26.5.3.1 a)"⟩),
   ("maximum_steel",
    ⟨[("maximum_allowed", .num (round2 Ast_max)), ("provided_steel", .num (round2 Ast))],
     decide (Ast ≤ Ast_max),
     "Maximum longitudinal reinforcement (IS 456 Cl. 26.5.3.1 c)"⟩),
   ("axial_capacity",
    ⟨[("design_load", .num (round2 Pu)), ("capacity", .num (round2 Pu_max))],
     decide (Pu ≤ Pu_max),
     "Axial load capacity (IS 456 Cl. 39.3)"⟩),
   ("minimum_bars",
    ⟨[("minimum_required", .num (min_bars : ℚ)), ("provided_bars", .num (nb : ℚ))],
     decide (min_bars ≤ nb),
     "Minimum number of longitudinal bars (IS 456 Cl. 26.5.3.1 d)"⟩),
   ("tie_reinforcement",
    ⟨[("minimum_tie_diameter", .num (round2 tie_dia)),
      ("maximum_tie_spacing", .num (round2 tie_spacing))],
     true,
     "Tie reinforcement requirements (IS 456 Cl. 26.5.3.2)"⟩)]

/-- The column design_summary dictionary. -/
def columnSummary (width depth height Ag stp Pu : ℚ) (cg sg : PyVal) : Obj :=
  [("width", .num width), ("depth", .num depth), ("height", .num height),
   ("gross_area", .num (round2 Ag)), ("steel_percentage", .num (round2 stp)),
   ("design_axial_load", .num (round2 Pu)), ("concrete_grade", cg),
   ("steel_grade", sg)]

/-- The try-block body of check_column_compliance. -/
def columnBody (sq : ℚ → ℚ) (dd : DesignData) : Except Fault (Obj × Checks) := do
  let dims ← req "dimensions" dd.dimensions
  let loads ← req "loads" dd.loads
  let mats ← req "materials" dd.materials
  let reinf ← req "reinforcement" dd.reinforcement
  let width ← getFloatD dims "breadth" 0
  let depth ← getFloatD dims "depth" 0
  let lengthV ← getFloatD dims "length" 0
  let height := lengthV * 1000
  let _cover ← getFloatD reinf "cover" 40
  let concrete_grade := getRawD mats "concrete_grade" (.str "M20")
  let steel_grade := getRawD mats "steel_grade" (.str "Fe500")
  let fck := gradeVal CONCRETE_GRADES concrete_grade 20
  let fy := gradeVal STEEL_GRADES steel_grade 500
  let axial_load ← getFloatD loads "axial_load" 0
  let moment ← getFloatD loads "moment" 0
  let Pu := LOAD_FACTOR_DEAD * axial_load
  let _Mu := LOAD_FACTOR_DEAD * moment
  let Ag := width * depth
  let bar_dia ← getFloatD reinf "bar_diameter" 16
  let num_bars ← getIntD reinf "num_bars" 8
  let bar_area := piQ * (bar_dia / 2) ^ 2
  let Ast := (num_bars : ℚ) * bar_area
  -- the slenderness divisor 2 * sqrt 3 is a fixed nonzero constant in the
  -- source, so only the division by least_radius itself can raise
  let least_radius := min width depth / (2 * sq 3)
  let slender ← pyDiv height least_radius
  let stp ← pyDiv (100 * Ast) Ag
  pure (columnSummary width depth height Ag stp Pu concrete_grade steel_grade,
        columnChecks width depth fck fy Pu num_bars bar_dia slender Ast)

/-- check_column_compliance with its try/except wrapper. -/
def check_column_compliance (sq : ℚ → ℚ) (dd : DesignData) : CheckerOutcome :=
  match columnBody sq dd with
  | .ok sc => .ok (mkResult "column" sc.1 sc.2)
  | .error e => .err e "column"

/-! Slab checker (slab_checker.py). -/
/-- The inline required-steel block shared verbatim by the slab and footing
checkers: branch on k against 0.138 for a per-strip moment in Nmm. -/
def requiredSteelByK (Mu_nmm fck fy b d : ℚ) : Except Fault ℚ := do
  let k ← pyDiv Mu_nmm (fck * b * d ^ 2)
  if k ≤ 0.138 then pyDiv Mu_nmm (0.87 * fy * (1 - k / 3) * d)
  else pyDiv Mu_nmm (0.87 * fy * 0.9 * d)

/-- The slab check records, in source order; the distribution-steel entry is
present exactly when the one-way branch computed its pair of values. -/
def slabChecks (min_th thickness AstR AstP Ast_min spacing tau_v tau_c_max : ℚ)
    (dist : Option (ℚ × ℚ)) : Checks :=
  let max_spacing := min (3 * thickness) 300
  [("minimum_thickness",
    ⟨[("minimum_required", .num (round2 min_th)), ("provided_thickness", .num thickness)],
     decide (min_th ≤ thickness),
     "Minimum thickness for deflection control (IS 456 Cl. 23.2.1)"⟩),
   ("flexural_strength",
    ⟨[("required_steel", .num (round2 AstR)), ("provided_steel", .num (round2 AstP))],
     decide (AstR ≤ AstP),
     "Flexural reinforcement adequacy"⟩),
   ("minimum_steel",
    ⟨[("minimum_required", .num (round2 Ast_min)), ("provided_steel", .num (round2 AstP))],
     decide (Ast_min ≤ AstP),
     "Minimum reinforcement (IS 456 Cl. 26.5.2.1)"⟩),
   ("maximum_spacing",
    ⟨[("maximum_allowed", .num max_spacing), ("provided_spacing", .num spacing)],
     decide (spacing ≤ max_spacing),
     "Maximum spacing of reinforcement (IS 456 Cl. 26.3.3)"⟩),
   ("shear_strength",
    ⟨[("design_shear_stress", .num (round3 tau_v)), ("maximum_allowable", .num (round3 tau_c_max))],
     decide (tau_v ≤ tau_c_max),
     "Shear strength (IS 456 Cl. 40.2.1)"⟩)]
  ++ (match dist with
      | none => []
      | some p =>
        [("distribution_steel",
          ⟨[("minimum_required", .num (round2 p.1)), ("provided_steel", .num (round2 p.2))],
           decide (p.1 ≤ p.2),
           "Distribution reinforcement (IS 456 Cl. 26.5.2.1)"⟩)])

/-- The one-way-only distribution-steel computation of the slab checker:
minimum required area and area provided by the distribution spacing. -/
def slabDist (reinf : Obj) (bar_area thickness : ℚ) (slab_type : String) :
    Except Fault (Option (ℚ × ℚ)) :=
  if slab_type = "one_way" then do
    let dist_spacing ← getFloatD reinf "distribution_spacing" 200
    let adp ← pyDiv (1000 * bar_area) dist_spacing
    pure (some (0.12 * thickness * 1000 / 100, adp))
  else pure none

/-- The slab design_summary dictionary. -/
def slabSummary (length breadth thickness d : ℚ) (slab_type : String)
    (aspect Mu wu : ℚ) (cg sg : PyVal) : Obj :=
  [("length", .num length), ("breadth", .num breadth), ("thickness", .num thickness),
   ("effective_depth", .num (round2 d)), ("slab_type", .str slab_type),
   ("aspect_ratio", .num (round2 aspect)), ("design_moment", .num (round2 Mu)),
   ("factored_load", .num (round2 wu)), ("concrete_grade", cg), ("steel_grade", sg)]

/-- The try-block body of check_slab_compliance. -/
def slabBody (sq : ℚ → ℚ) (dd : DesignData) : Except Fault (Obj × Checks) := do
  let dims ← req "dimensions" dd.dimensions
  let loads ← req "loads" dd.loads
  let mats ← req "materials" dd.materials
  let reinf ← req "reinforcement" dd.reinforcement
  let lengthV ← getFloatD dims "length" 0
  let length := lengthV * 1000
  let breadthV ← getFloatD dims "breadth" 0
  let breadth := breadthV * 1000
  let thickness ← getFloatD dims "depth" 0
  let cover ← getFloatD reinf "cover" 20
  let bar_dia ← getFloatD reinf "bar_diameter" 10
  let d := thickness - cover - bar_dia / 2
  let concrete_grade := getRawD mats "concrete_grade" (.str "M20")
  let steel_grade := getRawD mats "steel_grade" (.str "Fe500")
  let fck := gradeVal CONCRETE_GRADES concrete_grade 20
  let fy := gradeVal STEEL_GRADES steel_grade 500
  let dead_load ← getFloatD loads "dead_load" 0
  let live_load ← getFloatD loads "live_load" 0
  let self_weight := thickness / 1000 * CONCRETE_DENSITY
  let total_dead_load := dead_load + self_weight
  let wu := LOAD_FACTOR_DEAD * total_dead_load + LOAD_FACTOR_LIVE * live_load
  let aspect_ratio ← pyDiv (max length breadth) (min length breadth)
  let slab_type := if 2 ≤ aspect_ratio then "one_way" else "two_way"
  let shorter_span := min length breadth / 1000
  let Mu := if slab_type = "one_way" then wu * shorter_span ^ 2 / 8
            else 0.087 * wu * shorter_span ^ 2
  let Mu_nmm := Mu * 1000000 / 1000
  let b : ℚ := 1000
  let Ast_required ← requiredSteelByK Mu_nmm fck fy b d
  let spacing ← getFloatD reinf "spacing" 150
  let bar_area := piQ * (bar_dia / 2) ^ 2
  let Ast_provided ← pyDiv (1000 * bar_area) spacing
  let min_thickness_required := shorter_span * 1000 / 20
  let Vu := wu * shorter_span / 2 * 1000
  let tau_v ← pyDiv Vu (b * d)
  let _pt ← pyDiv (100 * Ast_provided) (b * d)
  let tau_c_max := 0.25 * sq fck
  let dist ← slabDist reinf bar_area thickness slab_type
  pure (slabSummary length breadth thickness d slab_type aspect_ratio Mu wu
          concrete_grade steel_grade,
        slabChecks min_thickness_required thickness Ast_required Ast_provided
          (0.12 * thickness * 1000 / 100) spacing tau_v tau_c_max dist)

/-- check_slab_compliance with its try/except wrapper. -/
def check_slab_compliance (sq : ℚ → ℚ) (dd : DesignData) : CheckerOutcome :=
  match slabBody sq dd with
  | .ok sc => .ok (mkResult "slab" sc.1 sc.2)
  | .error e => .err e "slab"

/-! Footing checker (footing_checker.py). -/
/-- Critical face moment of the footing: the two orthogonal strip moments
with the branch on the longer plan direction, then their maximum. -/
def footingCriticalMoment (net length breadth cantilever : ℚ) : ℚ :=
  if breadth ≤ length then
    max (net * breadth / 1000 * cantilever ^ 2 / 2)
        (net * length / 1000 * cantilever ^ 2 / 2)
  else
    max (net * length / 1000 * cantilever ^ 2 / 2)
        (net * breadth / 1000 * cantilever ^ 2 / 2)

/-- The one-way shear branch of the footing checker: when the shear span is
positive it computes the acting and allowable stresses, otherwise the check
is forced to pass as not critical (encoded by none). -/
def footingShear (sq : ℚ → ℚ) (net minlb b d AstP fck shear_span : ℚ) :
    Except Fault (Option (ℚ × ℚ)) :=
  if 0 < shear_span then do
    let Vu := net * minlb / 1000 * shear_span * 1000
    let tau_v ← pyDiv Vu (b * d)
    let _pt ← pyDiv (100 * AstP) (b * d)
    pure (some (tau_v, 0.36 * sq fck))
  else pure none

/-- The seven footing check records, in source order. -/
def footingChecks (bearing sbc cantilever thickness AstR AstP b spacing : ℚ)
    (ows : Option (ℚ × ℚ)) (tau_p tau_cp : ℚ) : Checks :=
  let min_thickness := max 150 (cantilever * 1000 / 4)
  let Ast_min := 0.12 * thickness * b / 100
  let max_spacing := min (3 * thickness) 450
  [("bearing_pressure",
    ⟨[("bearing_pressure", .num (round2 bearing)), ("safe_bearing_capacity", .num sbc)],
     decide (bearing ≤ sbc),
     "Soil bearing pressure check"⟩),
   ("minimum_thickness",
    ⟨[("minimum_required", .num (round2 min_thickness)), ("provided_thickness", .num thickness)],
     decide (min_thickness ≤ thickness),
     "Minimum thickness requirement"⟩),
   ("flexural_strength",
    ⟨[("required_steel", .num (round2 AstR)), ("provided_steel", .num (round2 AstP))],
     decide (AstR ≤ AstP),
     "Flexural reinforcement adequacy"⟩),
   ("minimum_steel",
    ⟨[("minimum_required", .num (round2 Ast_min)), ("provided_steel", .num (round2 AstP))],
     decide (Ast_min ≤ AstP),
     "Minimum reinforcement (IS 456 Cl. 26.5.2.1)"⟩),
   ("maximum_spacing",
    ⟨[("maximum_allowed", .num max_spacing), ("provided_spacing", .num spacing)],
     decide (spacing ≤ max_spacing),
     "Maximum spacing of reinforcement"⟩),
   (match ows with
    | some p =>
      ("one_way_shear",
       ⟨[("design_shear_stress", .num (round3 p.1)), ("allowable_shear_stress", .num (round3 p.2))],
        decide (p.1 ≤ p.2),
        "One-way shear strength (IS 456 Cl. 40)"⟩)
    | none =>
      ("one_way_shear",
       ⟨[("design_shear_stress", .num 0), ("allowable_shear_stress", .num 0)],
        true,
        "One-way shear - Not critical"⟩)),
   ("punching_shear",
    ⟨[("punching_shear_stress", .num (round3 tau_p)), ("allowable_punching_stress", .num (round3 tau_cp))],
     decide (tau_p ≤ tau_cp),
     "Two-way shear (punching) strength (IS 456 Cl. 31.6)"⟩)]

/-- The footing design_summary dictionary. -/
def footingSummary (length breadth thickness d footing_area bearing critical : ℚ)
    (cg sg : PyVal) : Obj :=
  [("length", .num length), ("breadth", .num breadth), ("thickness", .num thickness),
   ("effective_depth", .num (round2 d)), ("footing_area", .num (round2 footing_area)),
   ("bearing_pressure", .num (round2 bearing)), ("critical_moment", .num (round2 critical)),
   ("concrete_grade", cg), ("steel_grade", sg)]

/-- The try-block body of check_footing_compliance. -/
def footingBody (sq : ℚ → ℚ) (dd : DesignData) : Except Fault (Obj × Checks) := do
  let dims ← req "dimensions" dd.dimensions
  let loads ← req "loads" dd.loads
  let mats ← req "materials" dd.materials
  let reinf ← req "reinforcement" dd.reinforcement
  let lengthV ← getFloatD dims "length" 0
  let length := lengthV * 1000
  let breadthV ← getFloatD dims "breadth" 0
  let breadth := breadthV * 1000
  let thickness ← getFloatD dims "depth" 0
  let cover ← getFloatD reinf "cover" 50
  let column_size ← getFloatD dims "column_size" 300
  let bar_dia ← getFloatD reinf "bar_diameter" 16
  let d := thickness - cover - bar_dia / 2
  let concrete_grade := getRawD mats "concrete_grade" (.str "M20")
  let steel_grade := getRawD mats "steel_grade" (.str "Fe500")
  let fck := gradeVal CONCRETE_GRADES concrete_grade 20
  let fy := gradeVal STEEL_GRADES steel_grade 500
  let axial_load ← getFloatD loads "axial_load" 0
  let _moment ← getFloatD loads "moment" 0
  let sbc ← getFloatD loads "safe_bearing_capacity" 200
  let footing_area := length * breadth / 1000000
  let self_weight := footing_area * thickness / 1000 * CONCRETE_DENSITY
  let total_load := axial_load + self_weight
  let bearing ← pyDiv total_load footing_area
  let swp ← pyDiv self_weight footing_area
  let net := bearing - swp
  let cantilever := (max length breadth - column_size) / 2 / 1000
  let critical := footingCriticalMoment net length breadth cantilever
  let Mu_nmm ← pyDiv (critical * 1000000) (min length breadth)
  let b := min length breadth
  let Ast_required ← requiredSteelByK Mu_nmm fck fy b d
  let spacing ← getFloatD reinf "spacing" 150
  let bar_area := piQ * (bar_dia / 2) ^ 2
  let nbq ← pyDiv b spacing
  let num_bars := pyTrunc nbq + 1
  let Ast_provided := (num_bars : ℚ) * bar_area
  let shear_span := cantilever - d / 1000
  let ows ← footingShear sq net (min length breadth) b d Ast_provided fck shear_span
  let critical_perimeter := 4 * (column_size + d)
  let punching_area := (column_size + d) ^ 2
  let punching_force := axial_load * 1000 - net * punching_area / 1000000 * 1000
  let tau_p ← pyDiv punching_force (critical_perimeter * d)
  let tau_cp := 0.25 * sq fck
  pure (footingSummary length breadth thickness d footing_area bearing critical
          concrete_grade steel_grade,
        footingChecks bearing sbc cantilever thickness Ast_required Ast_provided
          b spacing ows tau_p tau_cp)

/-- check_footing_compliance with its try/except wrapper. -/
def check_footing_compliance (sq : ℚ → ℚ) (dd : DesignData) : CheckerOutcome :=
  match footingBody sq dd with
  | .ok sc => .ok (mkResult "footing" sc.1 sc.2)
  | .error e => .err e "footing"

/-! Load calculator (load_calculator.py). -/
/-- o[k] used in arithmetic: KeyError when absent, TypeError when a string. -/
def dnum (o : Obj) (k : String) : Except Fault ℚ := do
  asNum (← ditem o k)

/-- The setdefault pass of auto_calculate_loads on building_parameters: an
absent or empty dictionary is replaced by the six-key default block, then
each listed key is defaulted individually (wind_area_per_column is not
touched by setdefault). -/
def setdefaultBuilding : Option BuildingParams → BuildingParams
  | none =>
    { building_use := some "residential", num_floors := some 1,
      floor_height := some 3, slab_thickness := some 150,
      tributary_area := some 20, tributary_width := some 3,
      wall_load := some 0, wind_area_per_column := none }
  | some bp =>
    { building_use := some (bp.building_use.getD "residential")
      num_floors := some (bp.num_floors.getD 1)
      floor_height := some (bp.floor_height.getD 3)
      slab_thickness := some (bp.slab_thickness.getD 150)
      tributary_area := some (bp.tributary_area.getD 20)
      tributary_width := some (bp.tributary_width.getD 3)
      wall_load := some (bp.wall_load.getD 0)
      wind_area_per_column := bp.wind_area_per_column }

/-- Fully resolved building parameters: the setdefault pass together with
the in-function .get defaults, which coincide. -/
structure RBuildingParams where
  building_use : String
  num_floors : ℚ
  floor_height : ℚ
  slab_thickness : ℚ
  tributary_area : ℚ
  tributary_width : ℚ
  wall_load : ℚ
  wind_area_per_column : ℚ
deriving DecidableEq

/-- Resolution of optional building parameters to their effective values. -/
def resolveBuilding (o : Option BuildingParams) : RBuildingParams :=
  let b := setdefaultBuilding o
  ⟨b.building_use.getD "residential", b.num_floors.getD 1, b.floor_height.getD 3,
   b.slab_thickness.getD 150, b.tributary_area.getD 20, b.tributary_width.getD 3,
   b.wall_load.getD 0, b.wind_area_per_column.getD 15⟩

/-- The setdefault pass of auto_calculate_loads on wind_parameters. -/
def setdefaultWind : Option WindParams → WindParams
  | none =>
    { wind_zone := some "zone_2", terrain_category := some 2,
      importance_factor := some 1 }
  | some wp =>
    { wind_zone := some (wp.wind_zone.getD "zone_2")
      terrain_category := some (wp.terrain_category.getD 2)
      importance_factor := some (wp.importance_factor.getD 1) }

/-- Fully resolved wind parameters. -/
structure RWind where
  wind_zone : String
  terrain_category : ℤ
  importance_factor : ℚ
deriving DecidableEq

/-- Resolution of optional wind parameters to their effective values. -/
def resolveWind (o : Option WindParams) : RWind :=
  let w := setdefaultWind o
  ⟨w.wind_zone.getD "zone_2", w.terrain_category.getD 2,
   w.importance_factor.getD 1⟩

/-- calculate_wind_load: zone speed, terrain and height factor, design
speed and pressure. hp embeds the fractional power applied to height over
ten for heights above ten metres. -/
def calculate_wind_load (hp : ℚ → ℚ) (height : ℚ) (wind_zone : String)
    (terrain_category : ℤ) (importance_factor : ℚ) : WindLoadResult :=
  let vb := (WIND_SPEEDS.lookup wind_zone).getD 44
  let k2 :=
    if terrain_category = 1 then
      (if height ≤ 10 then 1.05 else 1.05 * hp (height / 10))
    else if terrain_category = 2 then
      (if height ≤ 10 then 1 else 1 * hp (height / 10))
    else if terrain_category = 3 then
      (if height ≤ 10 then 0.91 else 0.91 * hp (height / 10))
    else
      (if height ≤ 10 then 0.80 else 0.80 * hp (height / 10))
  let k3 : ℚ := 1
  let vz := vb * k2 * k3
  let pz := 0.6 * vz ^ 2 / 1000
  let design_wind_pressure := pz * importance_factor
  ⟨vb, k2, k3, vz, design_wind_pressure, height, wind_zone⟩

/-- calculate_self_weight: volume times density per member type; every call
site passes the default material concrete. The Python function returns None
on an unknown member type, which any later field access faults on; an empty
dictionary faults the same way here. -/
def calculate_self_weight (member_type : String) (dims : Obj) :
    Except Fault Obj := do
  let lengthR ← getFloatD dims "length" 0
  let length := lengthR / 1000
  let breadthR ← getFloatD dims "breadth" 0
  let breadth := breadthR / 1000
  let depthR ← getFloatD dims "depth" 0
  let depth := depthR / 1000
  let density := (MATERIAL_DENSITIES.lookup "concrete").getD 25
  if member_type = "beam" then do
    let volume := breadth * depth * length
    let self_weight := volume * density
    let udl ← pyDiv self_weight length
    pure [("volume", .num volume), ("total_self_weight", .num self_weight),
          ("udl_self_weight", .num udl), ("unit", .str "kN/m")]
  else if member_type = "column" then do
    let volume := breadth * depth * length
    let self_weight := volume * density
    pure [("volume", .num volume), ("total_self_weight", .num self_weight),
          ("unit", .str "kN")]
  else if member_type = "slab" then do
    let area := length * breadth
    let volume := area * depth
    let self_weight := volume * density
    let self_weight_per_area := density * depth
    pure [("area", .num area), ("volume", .num volume),
          ("total_self_weight", .num self_weight),
          ("self_weight_per_area", .num self_weight_per_area),
          ("unit", .str "kN/m2")]
  else if member_type = "footing" then do
    let volume := length * breadth * depth
    let self_weight := volume * density
    pure [("volume", .num volume), ("total_self_weight", .num self_weight),
          ("unit", .str "kN")]
  else
    pure []

/-- calculate_superimposed_dead_load: finish, partition and services loads
for beams and slabs, summed into total_sidl. -/
def calculate_superimposed_dead_load (member_type building_use : String)
    (include_partition include_finishes : Bool) : Obj :=
  if member_type = "beam" ∨ member_type = "slab" then
    let fin : List (String × ℚ) :=
      if include_finishes then
        [("floor_finish", 1), ("ceiling_finish", 0.5), ("waterproofing", 0.3)]
      else []
    let pw : ℚ :=
      if building_use = "residential" ∨ building_use = "office" then 1
      else if building_use = "retail" ∨ building_use = "industrial" then 1.5
      else 1
    let part : List (String × ℚ) :=
      if include_partition then [("partition_walls", pw)] else []
    let items := fin ++ part ++ [("mep_services", 0.5)]
    let total := (items.map Prod.snd).sum
    items.map (fun p => (p.1, PyVal.num p.2)) ++
      [("total_sidl", .num total), ("unit", .str "kN/m2")]
  else []

/-- calculate_live_load: usage-class table lookup packaged per member type.
The Python function returns None on an unknown member type. -/
def calculate_live_load (member_type building_use : String) : Obj :=
  let base := (LIVE_LOADS.lookup building_use).getD 2
  if member_type = "beam" then
    [("live_load", .num base), ("unit", .str "kN/m2"),
     ("note", .str "Apply to tributary area")]
  else if member_type = "column" then
    [("live_load_per_floor", .num base), ("unit", .str "kN/m2"),
     ("note", .str "Multiply by tributary area and number of floors")]
  else if member_type = "slab" then
    [("live_load", .num base), ("unit", .str "kN/m2")]
  else if member_type = "footing" then
    [("live_load", .num base), ("unit", .str "kN/m2"),
     ("note", .str "From superstructure")]
  else []

/-- calculate_column_axial_load: floor dead and live loads over the
tributary area, wind load, and the three load combinations with their
maximum as the critical axial load. -/
def calculate_column_axial_load (hp : ℚ → ℚ) (dims : Obj)
    (bd : RBuildingParams) (wind_data : Option RWind) :
    Except Fault ColumnLoadResult := do
  let sw ← calculate_self_weight "column" dims
  let swv ← dnum sw "total_self_weight"
  let num_floors := bd.num_floors
  let floor_area_per_column := bd.tributary_area
  let building_use := bd.building_use
  let _floor_height := bd.floor_height
  let slab_thickness := bd.slab_thickness
  let slab_self_weight := (MATERIAL_DENSITIES.lookup "concrete").getD 25 *
    (slab_thickness / 1000)
  let sidl := calculate_superimposed_dead_load "slab" building_use true true
  let total_sidl ← getNumD sidl "total_sidl" 2
  let lld := calculate_live_load "slab" building_use
  let live_load_per_floor ← getNumD lld "live_load" 2
  let dead_load_per_floor := (slab_self_weight + total_sidl) * floor_area_per_column
  let live_load_per_floor_total := live_load_per_floor * floor_area_per_column
  let total_dead_load := swv + dead_load_per_floor * num_floors
  let total_live_load := live_load_per_floor_total * num_floors
  let total_heightR ← getFloatD dims "length" 3000
  let total_height := total_heightR / 1000
  let wp := match wind_data with
    | some w =>
      let wl := calculate_wind_load hp total_height w.wind_zone w.terrain_category 1
      (wl.wind_pressure * bd.wind_area_per_column, wl.wind_pressure)
    | none => ((0 : ℚ), (0 : ℚ))
  let total_wind_load := wp.1
  let wind_pressure := wp.2
  let combination_1 := 1.5 * (total_dead_load + total_live_load)
  let combination_2 := 1.2 * (total_dead_load + total_live_load + total_wind_load)
  let combination_3 := 1.5 * (total_dead_load + 0.25 * total_live_load + total_wind_load)
  let critical_load := max combination_1 (max combination_2 combination_3)
  pure ⟨swv, dead_load_per_floor * num_floors, total_dead_load, total_live_load,
        total_wind_load, combination_1, combination_2, combination_3,
        critical_load, wind_pressure, num_floors, floor_area_per_column⟩

/-- calculate_beam_loads: beam self-weight plus tributary slab dead and
live loads and the wall load, with the single factored combination. -/
def calculate_beam_loads (dims : Obj) (ld : RBuildingParams) :
    Except Fault BeamLoadResult := do
  let sw ← calculate_self_weight "beam" dims
  let beam_udl ← dnum sw "udl_self_weight"
  let tributary_width := ld.tributary_width
  let slab_thickness := ld.slab_thickness
  let building_use := ld.building_use
  let slab_self_weight := (MATERIAL_DENSITIES.lookup "concrete").getD 25 *
    (slab_thickness / 1000)
  let sidl := calculate_superimposed_dead_load "slab" building_use true true
  let tsidl ← getNumD sidl "total_sidl" 2
  let total_slab_dead_load := (slab_self_weight + tsidl) * tributary_width
  let lld := calculate_live_load "slab" building_use
  let llv ← getNumD lld "live_load" 2
  let slab_live_load := llv * tributary_width
  let wall_load := ld.wall_load
  let total_dead_load := beam_udl + total_slab_dead_load + wall_load
  let total_live_load := slab_live_load
  let combination_1 := 1.5 * (total_dead_load + total_live_load)
  pure ⟨beam_udl, total_slab_dead_load, slab_live_load, wall_load,
        total_dead_load, total_live_load, combination_1, tributary_width⟩

/-- auto_calculate_loads: resolves building and wind parameter defaults,
then per member type computes a loads block (whose values Python writes as
str of the computed floats) and the load and wind audit blocks, mutating
the design record. Unknown member types only receive the parameter
defaulting. -/
def auto_calculate_loads (hp : ℚ → ℚ) (member_type : String) (d0 : DesignData) :
    Except Fault DesignData := do
  let rb := resolveBuilding d0.building_parameters
  let rw := resolveWind d0.wind_parameters
  let d := { d0 with building_parameters := some (setdefaultBuilding d0.building_parameters),
                     wind_parameters := some (setdefaultWind d0.wind_parameters) }
  if member_type = "column" then do
    let dims ← req "dimensions" d.dimensions
    let lr ← calculate_column_axial_load hp dims rb (some rw)
    let total_heightR ← getFloatD dims "length" 3000
    let total_height := total_heightR / 1000
    let wl := calculate_wind_load hp total_height rw.wind_zone rw.terrain_category 1
    let wind_moment := wl.wind_pressure * total_height ^ 2 / 6
    pure { d with
      loads := some [("axial_load", .numStr lr.critical_axial_load),
                     ("moment", .numStr (max 50 wind_moment))]
      load_calculations := some (.column lr)
      wind_calculations := some wl }
  else if member_type = "beam" then do
    let dims ← req "dimensions" d.dimensions
    let lr ← calculate_beam_loads dims rb
    let beam_heightR ← getFloatD dims "depth" 600
    let beam_height := beam_heightR / 1000
    let wl := calculate_wind_load hp beam_height rw.wind_zone rw.terrain_category 1
    let beam_widthR ← getFloatD dims "breadth" 300
    let beam_width := beam_widthR / 1000
    let wind_load_on_beam := wl.wind_pressure * beam_width
    pure { d with
      loads := some [("dead_load", .numStr lr.total_dead_load),
                     ("live_load", .numStr lr.total_live_load),
                     ("wind_load", .numStr wind_load_on_beam),
                     ("factored_load", .numStr lr.factored_load)]
      load_calculations := some (.beam lr)
      wind_calculations := some wl }
  else if member_type = "slab" then do
    let dims ← req "dimensions" d.dimensions
    let sw ← calculate_self_weight "slab" dims
    let sidl := calculate_superimposed_dead_load "slab" rb.building_use true true
    let lld := calculate_live_load "slab" rb.building_use
    let slab_height := rb.floor_height * rb.num_floors
    let wl := calculate_wind_load hp slab_height rw.wind_zone rw.terrain_category 1
    let wind_uplift := -0.8 * wl.wind_pressure
    let spa ← dnum sw "self_weight_per_area"
    let tsidl ← getNumD sidl "total_sidl" 2
    let total_dead_load := spa + tsidl
    let llv ← getNumD lld "live_load" 2
    pure { d with
      loads := some [("dead_load", .numStr total_dead_load),
                     ("live_load", .numStr llv),
                     ("wind_load", .numStr wind_uplift),
                     ("total_load", .numStr (total_dead_load + llv))]
      load_calculations := some (.slab sw sidl lld)
      wind_calculations := some wl }
  else if member_type = "footing" then do
    let num_floors := rb.num_floors
    let tributary_area := rb.tributary_area
    let building_use := rb.building_use
    let lld := calculate_live_load "slab" building_use
    let live_load_per_floor ← getNumD lld "live_load" 2
    let slab_thickness := rb.slab_thickness
    let slab_dead_load := (MATERIAL_DENSITIES.lookup "concrete").getD 25 *
      (slab_thickness / 1000)
    let sidl := calculate_superimposed_dead_load "slab" building_use true true
    let tsidl ← getNumD sidl "total_sidl" 2
    let total_dead_load_per_floor := slab_dead_load + tsidl
    let total_dead_load := total_dead_load_per_floor * tributary_area * num_floors
    let total_live_load := live_load_per_floor * tributary_area * num_floors
    let building_height := rb.floor_height * num_floors
    let wl := calculate_wind_load hp building_height rw.wind_zone rw.terrain_category 1
    let wind_area := building_height * 10
    let wind_force := wl.wind_pressure * wind_area
    let wind_moment := wind_force * building_height / 2
    let dims ← req "dimensions" d.dimensions
    let fsw ← calculate_self_weight "footing" dims
    let fswv ← dnum fsw "total_self_weight"
    pure { d with
      loads := some [("vertical_load", .numStr (total_dead_load + total_live_load + fswv)),
                     ("dead_load", .numStr total_dead_load),
                     ("live_load", .numStr total_live_load),
                     ("wind_moment", .numStr wind_moment)]
      load_calculations := some (.footing ⟨total_dead_load_per_floor,
        live_load_per_floor, total_dead_load, total_live_load, fswv,
        num_floors, tributary_area⟩)
      wind_calculations := some wl }
  else
    pure d

/-! Orchestrator (check_code_new.py, check_compliance). -/
/-- The fixed generic recommendation lists, selected by member type only. -/
def recListFor (member_type : String) : List String :=
  if member_type = "beam" then
    ["Consider increasing beam depth if moment capacity is insufficient",
     "Check reinforcement spacing for shear requirements"]
  else if member_type = "column" then
    ["Increase column dimensions if axial capacity is exceeded",
     "Check minimum reinforcement percentage"]
  else if member_type = "slab" then
    ["Consider increasing slab thickness if deflection is excessive",
     "Check reinforcement requirements for flexure"]
  else if member_type = "footing" then
    ["Increase footing dimensions if bearing pressure is excessive",
     "Check reinforcement for punching shear"]
  else []

/-- What check_compliance returns: a checker result with appended
recommendations and merged load blocks, the unsupported-member-type
error object, a checker error object (with the load blocks the merge step
may still attach to it), or the orchestrator-level except result. -/
inductive OrchOutcome where
  | ok (r : MemberResult) (recommendations : List String)
      (load_calculations : Option LoadAudit) (calculated_loads : Option Obj)
  | unsupported (error : String) (supported_types : List String)
  | err (e : Fault) (member_type : String)
      (load_calculations : Option LoadAudit) (calculated_loads : Option Obj)
  | errOrch (e : Fault) (member_type : String)
deriving DecidableEq

/-- The load-resolution step of check_compliance: the load calculator runs
exactly when the auto_calculate_loads flag (absent meaning true) is set or
the loads block is absent. -/
def resolveDesign (hp : ℚ → ℚ) (member_type : String) (d : DesignData) :
    Except Fault DesignData :=
  let auto_calc := d.auto_calculate_loads.getD true
  if auto_calc || d.loads.isNone then auto_calculate_loads hp member_type d
  else .ok d

/-- The post-dispatch tail of check_compliance: recommendations on failed
overall compliance, and the merge of the load audit and calculated loads
into the result when the resolved record carries load_calculations. -/
def finishResult (member_type : String) (resolved : DesignData)
    (co : CheckerOutcome) : Except Fault OrchOutcome :=
  match co with
  | .ok r =>
    let recs := if r.overall_compliance then [] else recListFor member_type
    if resolved.load_calculations.isSome then do
      let cl ← req "loads" resolved.loads
      pure (.ok r recs resolved.load_calculations (some cl))
    else pure (.ok r recs none none)
  | .err e emt =>
    if resolved.load_calculations.isSome then do
      let cl ← req "loads" resolved.loads
      pure (.err e emt resolved.load_calculations (some cl))
    else pure (.err e emt none none)

/-- The try-block body of check_compliance: lower-case dispatch key, load
resolution, dispatch to the member checker, and the result tail. -/
def check_compliance_body (sq hp : ℚ → ℚ) (d : DesignData) :
    Except Fault OrchOutcome := do
  let member_type := d.member_type.toLower
  let resolved ← resolveDesign hp member_type d
  if member_type = "beam" then
    finishResult member_type resolved (check_beam_compliance sq resolved)
  else if member_type = "column" then
    finishResult member_type resolved (check_column_compliance sq resolved)
  else if member_type = "slab" then
    finishResult member_type resolved (check_slab_compliance sq resolved)
  else if member_type = "footing" then
    finishResult member_type resolved (check_footing_compliance sq resolved)
  else
    pure (.unsupported ("Unsupported member type: " ++ member_type)
      ["beam", "column", "slab", "footing"])

/-- check_compliance with its try/except wrapper: a fault raised anywhere
inside the body is converted into the error object tagged with the member
type. -/
def check_compliance (sq hp : ℚ → ℚ) (d : DesignData) : OrchOutcome :=
  match check_compliance_body sq hp d with
  | .ok r => r
  | .error e => .errOrch e d.member_type.toLower

/-! Observers used to state the claims. -/
/-- Whether a checker returned a result dictionary rather than an error. -/
def CheckerOutcome.isOk : CheckerOutcome → Bool
  | .ok _ => true
  | .err _ _ => false

/-- Whether an Except computation succeeded. -/
def isOkE {α : Type} : Except Fault α → Bool
  | .ok _ => true
  | .error _ => false

/-- The success value of an Except computation, with a fallback. -/
def okD {α : Type} (x : Except Fault α) (dflt : α) : α :=
  match x with
  | .ok a => a
  | .error _ => dflt

/-- The named check record of a successful checker outcome. -/
def checkOf (co : CheckerOutcome) (k : String) : Option CheckRec :=
  match co with
  | .ok r => r.checks.lookup k
  | .err _ _ => none

/-- The pass flag of a named check of a successful checker outcome. -/
def passOf (co : CheckerOutcome) (k : String) : Option Bool :=
  (checkOf co k).map (fun c => c.pass)

/-- A named design_summary entry of a successful checker outcome. -/
def summaryOf (co : CheckerOutcome) (k : String) : Option PyVal :=
  match co with
  | .ok r => r.design_summary.lookup k
  | .err _ _ => none

/-- The fixed beam check sequence. -/
def beamCheckNames : List String :=
  ["flexural_strength", "minimum_steel", "maximum_steel", "shear_strength",
   "deflection", "development_length"]

/-- The fixed column check sequence. -/
def columnCheckNames : List String :=
  ["minimum_dimension", "slenderness_ratio", "minimum_steel", "maximum_steel",
   "axial_capacity", "minimum_bars", "tie_reinforcement"]

/-- The fixed two-way slab check sequence. -/
def slabCheckNames : List String :=
  ["minimum_thickness", "flexural_strength", "minimum_steel", "maximum_spacing",
   "shear_strength"]

/-- The fixed one-way slab check sequence. -/
def slabCheckNamesOneWay : List String :=
  slabCheckNames ++ ["distribution_steel"]

/-- The fixed footing check sequence. -/
def footingCheckNames : List String :=
  ["bearing_pressure", "minimum_thickness", "flexural_strength", "minimum_steel",
   "maximum_spacing", "one_way_shear", "punching_shear"]

/-- A checker outcome is either a result holding one of the fixed full check
sequences for its member type, or the error object tagged with that member
type (and by construction holding no checks at all). -/
def checkerShapeOk (mt : String) (names : List (List String)) :
    CheckerOutcome → Prop
  | .ok r => r.member_type = mt ∧ r.checks.map Prod.fst ∈ names
  | .err _ emt => emt = mt

/-- Every error-shaped orchestrator outcome is tagged with the lower-cased
member type of the design record. -/
def orchErrTagged (mt : String) : OrchOutcome → Prop
  | .err _ emt _ _ => emt = mt
  | .errOrch _ emt => emt = mt
  | _ => True

/-- A checker outcome whose result has overall_compliance equal to the
conjunction of its pass flags and status PASS exactly on compliance. -/
def overallAndStatusOk : CheckerOutcome → Prop
  | .ok r =>
    r.overall_compliance = r.checks.all (fun c => c.2.pass) ∧
      (r.status = "PASS" ↔ r.overall_compliance = true)
  | .err _ _ => True

/-- A concrete column design used to instantiate claims about the column
checker. -/
def colTie : DesignData :=
  { member_type := "column"
    dimensions := some [("length", .num 3), ("breadth", .num 300), ("depth", .num 300)]
    materials := some [("concrete_grade", .str "M20"), ("steel_grade", .str "Fe415")]
    reinforcement := some [("cover", .num 40), ("bar_diameter", .num 16), ("num_bars", .num 8)]
    loads := some [("axial_load", .num 500), ("moment", .num 50)] }

/-- A concrete slab design with aspect ratio 2.5. -/
def slabAspect25 : DesignData :=
  { member_type := "slab"
    dimensions := some [("length", .num 5), ("breadth", .num 2), ("depth", .num 150)]
    materials := some [("concrete_grade", .str "M20"), ("steel_grade", .str "Fe415")]
    reinforcement := some [("cover", .num 20), ("bar_diameter", .num 10),
                           ("spacing", .num 150), ("distribution_spacing", .num 200)]
    loads := some [("dead_load", .num 2), ("live_load", .num 3)] }

/-- A concrete slab design with aspect ratio 1.5. -/
def slabAspect15 : DesignData :=
  { slabAspect25 with
    dimensions := some [("length", .num 3), ("breadth", .num 2), ("depth", .num 150)] }

/-- A design record with the unsupported member type Wall. -/
def wallDesign : DesignData := { member_type := "Wall" }

/-- A beam design carrying its own loads block and no
auto_calculate_loads flag. -/
def c3beam : DesignData :=
  { member_type := "beam"
    dimensions := some [("length", .num 6), ("breadth", .num 300), ("depth", .num 600)]
    materials := some [("concrete_grade", .str "M20"), ("steel_grade", .str "Fe415")]
    reinforcement := some [("cover", .num 25), ("bar_diameter", .num 16), ("num_bars", .num 4)]
    loads := some [("dead_load", .num 2.5), ("live_load", .num 3)]
    auto_calculate_loads := none }

/-- The same beam design with auto-calculation explicitly disabled. -/
def c3off : DesignData := { c3beam with auto_calculate_loads := some false }

/-- A footing design driven through the automatic load calculator. -/
def c4footing : DesignData :=
  { member_type := "footing"
    dimensions := some [("length", .num 2000), ("breadth", .num 2000), ("depth", .num 400)] }

/-- A column design driven through the automatic load calculator. -/
def c4column : DesignData :=
  { member_type := "column"
    dimensions := some [("length", .num 3), ("breadth", .num 300), ("depth", .num 300)] }

/-- The dimensions dictionary of the concrete column design. -/
def c4dims : Obj := [("length", .num 3), ("breadth", .num 300), ("depth", .num 300)]

/-- A fully populated footing design driven through the automatic load
calculator and then the footing checker. -/
def c10footing : DesignData :=
  { member_type := "footing"
    dimensions := some [("length", .num 2000), ("breadth", .num 2000), ("depth", .num 400)]
    materials := some [("concrete_grade", .str "M20"), ("steel_grade", .str "Fe415")]
    reinforcement := some [("cover", .num 50), ("bar_diameter", .num 16), ("spacing", .num 150)] }

/-- A column design with no dimensions block, which faults inside the load
calculator invoked by the orchestrator. -/
def faultyColumn : DesignData := { member_type := "column" }

/-- A design record with its provided bar count replaced, everything else
held fixed. -/
def setNumBars (dd : DesignData) (n : ℕ) : DesignData :=
  { dd with reinforcement := some (dset (dd.reinforcement.getD []) "num_bars" (.num n)) }

/-- A beam design without a bar count, to be instantiated with two counts. -/
def c6beam : DesignData :=
  { member_type := "beam"
    dimensions := some [("length", .num 6), ("breadth", .num 300), ("depth", .num 600)]
    materials := some [("concrete_grade", .str "M20"), ("steel_grade", .str "Fe415")]
    reinforcement := some [("cover", .num 25), ("bar_diameter", .num 16)]
    loads := some [("dead_load", .num 2.5), ("live_load", .num 3)] }

/-! Helper lemmas for reasoning about the Except monad. -/
theorem bind_ok_iff {α β : Type} {x : Except Fault α} {f : α → Except Fault β}
    {b : β} : x.bind f = .ok b ↔ ∃ a, x = .ok a ∧ f a = .ok b := by
  cases x with
  | ok a => simp [Except.bind]
  | error e => simp [Except.bind]

theorem bindM_ok_iff {α β : Type} {x : Except Fault α} {f : α → Except Fault β}
    {b : β} : (x >>= f) = .ok b ↔ ∃ a, x = .ok a ∧ f a = .ok b := by
  show x.bind f = .ok b ↔ _
  exact bind_ok_iff

theorem pure_ok_iff {α : Type} {a b : α} :
    (pure a : Except Fault α) = .ok b ↔ a = b := by
  show Except.ok a = .ok b ↔ a = b
  constructor
  · intro h; cases h; rfl
  · intro h; cases h; rfl

theorem pyDiv_ok {a b q : ℚ} (h : pyDiv a b = .ok q) : b ≠ 0 ∧ q = a / b := by
  unfold pyDiv at h
  by_cases hb : b = 0
  · simp [hb] at h
  · simp [hb] at h; exact ⟨hb, h.symm⟩

theorem req_ok {α : Type} {k : String} {o : Option α} {a : α}
    (h : req k o = .ok a) : o = some a := by
  cases o with
  | none => exact absurd h (by simp [req])
  | some b => cases h; rfl

/-- Characterisation of a successful beam-checker body run: every computed
quantity is pinned by its defining equation and the produced summary and
check list are exactly the beamSummary and beamChecks of those quantities. -/
theorem beamBody_shape (sq : ℚ → ℚ) (dd : DesignData) (s : Obj) (c : Checks)
    (h : beamBody sq dd = .ok (s, c)) :
    ∃ dims loads mats reinf, ∃ lengthV width depth cover bar_dia dead live Mu Vu AstR : ℚ,
    ∃ nb : ℤ, ∃ mins : Bool × ℚ, ∃ Vc actual ld : ℚ,
      dd.dimensions = some dims ∧ dd.loads = some loads ∧ dd.materials = some mats ∧
      dd.reinforcement = some reinf ∧
      getFloatD dims "length" 0 = .ok lengthV ∧
      getFloatD dims "breadth" 0 = .ok width ∧
      getFloatD dims "depth" 0 = .ok depth ∧
      getFloatD reinf "cover" 25 = .ok cover ∧
      getFloatD reinf "bar_diameter" 16 = .ok bar_dia ∧
      getFloatD loads "dead_load" 0 = .ok dead ∧
      getFloatD loads "live_load" 0 = .ok live ∧
      calculate_design_moment (lengthV * 1000 / 1000)
        (LOAD_FACTOR_DEAD * dead + LOAD_FACTOR_LIVE * live) none = .ok Mu ∧
      calculate_design_shear (lengthV * 1000 / 1000)
        (LOAD_FACTOR_DEAD * dead + LOAD_FACTOR_LIVE * live) none = .ok Vu ∧
      calculate_required_area_of_steel (Mu * 1000000)
        (gradeVal CONCRETE_GRADES (getRawD mats "concrete_grade" (.str "M20")) 20)
        (gradeVal STEEL_GRADES (getRawD mats "steel_grade" (.str "Fe500")) 500)
        width (depth - cover - bar_dia / 2) = .ok AstR ∧
      getIntD reinf "num_bars" 2 = .ok nb ∧
      check_minimum_steel ((nb : ℚ) * (piQ * (bar_dia / 2) ^ 2)) width
        (depth - cover - bar_dia / 2)
        (gradeVal STEEL_GRADES (getRawD mats "steel_grade" (.str "Fe500")) 500) = .ok mins ∧
      c = beamChecks AstR ((nb : ℚ) * (piQ * (bar_dia / 2) ^ 2)) mins.1 mins.2
            (check_maximum_steel ((nb : ℚ) * (piQ * (bar_dia / 2) ^ 2)) width
              (depth - cover - bar_dia / 2)).1
            (check_maximum_steel ((nb : ℚ) * (piQ * (bar_dia / 2) ^ 2)) width
              (depth - cover - bar_dia / 2)).2
            (Vu * 1000) Vc actual
            (calculate_deflection_ratio (lengthV * 1000) "simply_supported" * 1)
            ld (lengthV * 1000 / 2) ∧
      s = beamSummary (lengthV * 1000) width depth (depth - cover - bar_dia / 2) Mu Vu
            (getRawD mats "concrete_grade" (.str "M20"))
            (getRawD mats "steel_grade" (.str "Fe500")) := by
  unfold beamBody at h
  simp only [bindM_ok_iff, pure_ok_iff] at h
  obtain ⟨dims, hdims, loads, hloads, mats, hmats, reinf, hreinf, lengthV, hlen,
    width, hw, depth, hd, cover, hc, bar_dia, hbd, dead, hdead, live, hlive,
    Mu, hMu, Vu, hVu, AstR, hAstR, nb, hnb, mins, hmins, Vc, hVc, actual, hact,
    ld, hld, hsc⟩ := h
  cases hsc
  exact ⟨dims, loads, mats, reinf, lengthV, width, depth, cover, bar_dia, dead,
    live, Mu, Vu, AstR, nb, mins, Vc, actual, ld, req_ok hdims, req_ok hloads,
    req_ok hmats, req_ok hreinf, hlen, hw, hd, hc, hbd, hdead, hlive, hMu, hVu,
    hAstR, hnb, hmins, rfl, rfl⟩

/-- Characterisation of a successful column-checker body run. -/
theorem columnBody_shape (sq : ℚ → ℚ) (dd : DesignData) (s : Obj) (c : Checks)
    (h : columnBody sq dd = .ok (s, c)) :
    ∃ dims loads mats reinf, ∃ width depth lengthV cover axial moment bar_dia : ℚ,
    ∃ nb : ℤ, ∃ slender stp : ℚ,
      dd.dimensions = some dims ∧ dd.loads = some loads ∧ dd.materials = some mats ∧
      dd.reinforcement = some reinf ∧
      getFloatD dims "breadth" 0 = .ok width ∧
      getFloatD dims "depth" 0 = .ok depth ∧
      getFloatD dims "length" 0 = .ok lengthV ∧
      getFloatD reinf "cover" 40 = .ok cover ∧
      getFloatD loads "axial_load" 0 = .ok axial ∧
      getFloatD loads "moment" 0 = .ok moment ∧
      getFloatD reinf "bar_diameter" 16 = .ok bar_dia ∧
      getIntD reinf "num_bars" 8 = .ok nb ∧
      pyDiv (lengthV * 1000) (min width depth / (2 * sq 3)) = .ok slender ∧
      pyDiv (100 * ((nb : ℚ) * (piQ * (bar_dia / 2) ^ 2))) (width * depth) = .ok stp ∧
      c = columnChecks width depth
            (gradeVal CONCRETE_GRADES (getRawD mats "concrete_grade" (.str "M20")) 20)
            (gradeVal STEEL_GRADES (getRawD mats "steel_grade" (.str "Fe500")) 500)
            (LOAD_FACTOR_DEAD * axial) nb bar_dia slender
            ((nb : ℚ) * (piQ * (bar_dia / 2) ^ 2)) ∧
      s = columnSummary width depth (lengthV * 1000) (width * depth) stp
            (LOAD_FACTOR_DEAD * axial)
            (getRawD mats "concrete_grade" (.str "M20"))
            (getRawD mats "steel_grade" (.str "Fe500")) := by
  unfold columnBody at h
  simp only [bindM_ok_iff, pure_ok_iff] at h
  obtain ⟨dims, hdims, loads, hloads, mats, hmats, reinf, hreinf, width, hw,
    depth, hd, lengthV, hlen, cover, hc, axial, hax, moment, hmo, bar_dia, hbd,
    nb, hnb, slender, hsl, stp, hstp, hsc⟩ := h
  cases hsc
  exact ⟨dims, loads, mats, reinf, width, depth, lengthV, cover, axial, moment,
    bar_dia, nb, slender, stp, req_ok hdims, req_ok hloads, req_ok hmats,
    req_ok hreinf, hw, hd, hlen, hc, hax, hmo, hbd, hnb, hsl, hstp, rfl, rfl⟩

/-- Characterisation of a successful slab-checker body run. -/
theorem slabBody_shape (sq : ℚ → ℚ) (dd : DesignData) (s : Obj) (c : Checks)
    (h : slabBody sq dd = .ok (s, c)) :
    ∃ dims loads mats reinf,
    ∃ lengthV breadthV thickness cover bar_dia dead live aspect AstR spacing AstP tau_v : ℚ,
    ∃ dist : Option (ℚ × ℚ),
      dd.dimensions = some dims ∧ dd.loads = some loads ∧ dd.materials = some mats ∧
      dd.reinforcement = some reinf ∧
      getFloatD dims "length" 0 = .ok lengthV ∧
      getFloatD dims "breadth" 0 = .ok breadthV ∧
      getFloatD dims "depth" 0 = .ok thickness ∧
      getFloatD reinf "cover" 20 = .ok cover ∧
      getFloatD reinf "bar_diameter" 10 = .ok bar_dia ∧
      getFloatD loads "dead_load" 0 = .ok dead ∧
      getFloatD loads "live_load" 0 = .ok live ∧
      pyDiv (max (lengthV * 1000) (breadthV * 1000)) (min (lengthV * 1000) (breadthV * 1000)) = .ok aspect ∧
      getFloatD reinf "spacing" 150 = .ok spacing ∧
      pyDiv (1000 * (piQ * (bar_dia / 2) ^ 2)) spacing = .ok AstP ∧
      slabDist reinf (piQ * (bar_dia / 2) ^ 2) thickness
        (if 2 ≤ aspect then "one_way" else "two_way") = .ok dist ∧
      c = slabChecks (min (lengthV * 1000) (breadthV * 1000) / 1000 * 1000 / 20) thickness
            AstR AstP (0.12 * thickness * 1000 / 100) spacing tau_v
            (0.25 * sq (gradeVal CONCRETE_GRADES (getRawD mats "concrete_grade" (.str "M20")) 20))
            dist ∧
      s = slabSummary (lengthV * 1000) (breadthV * 1000) thickness
            (thickness - cover - bar_dia / 2)
            (if 2 ≤ aspect then "one_way" else "two_way") aspect
            (if (if 2 ≤ aspect then "one_way" else "two_way") = "one_way" then
               (LOAD_FACTOR_DEAD * (dead + thickness / 1000 * CONCRETE_DENSITY) +
                 LOAD_FACTOR_LIVE * live) * (min (lengthV * 1000) (breadthV * 1000) / 1000) ^ 2 / 8
             else
               0.087 * (LOAD_FACTOR_DEAD * (dead + thickness / 1000 * CONCRETE_DENSITY) +
                 LOAD_FACTOR_LIVE * live) * (min (lengthV * 1000) (breadthV * 1000) / 1000) ^ 2)
            (LOAD_FACTOR_DEAD * (dead + thickness / 1000 * CONCRETE_DENSITY) +
              LOAD_FACTOR_LIVE * live)
            (getRawD mats "concrete_grade" (.str "M20"))
            (getRawD mats "steel_grade" (.str "Fe500")) := by
  unfold slabBody at h
  simp only [bindM_ok_iff, pure_ok_iff] at h
  obtain ⟨dims, hdims, loads, hloads, mats, hmats, reinf, hreinf, lengthV, hlen,
    breadthV, hbr, thickness, hth, cover, hc, bar_dia, hbd, dead, hdead, live,
    hlive, aspect, hasp, AstR, hAstR, spacing, hsp, AstP, hAstP, tau_v, htv,
    pt, hpt, dist, hdist, hsc⟩ := h
  cases hsc
  exact ⟨dims, loads, mats, reinf, lengthV, breadthV, thickness, cover, bar_dia,
    dead, live, aspect, AstR, spacing, AstP, tau_v, dist, req_ok hdims,
    req_ok hloads, req_ok hmats, req_ok hreinf, hlen, hbr, hth, hc, hbd, hdead,
    hlive, hasp, hsp, hAstP, hdist, rfl, rfl⟩

/-- Characterisation of a successful footing-checker body run. -/
theorem footingBody_shape (sq : ℚ → ℚ) (dd : DesignData) (s : Obj) (c : Checks)
    (h : footingBody sq dd = .ok (s, c)) :
    ∃ dims loads mats reinf,
    ∃ lengthV breadthV thickness cover column_size bar_dia axial sbc bearing swp AstR spacing nbq : ℚ,
    ∃ ows : Option (ℚ × ℚ), ∃ tau_p : ℚ,
      dd.dimensions = some dims ∧ dd.loads = some loads ∧ dd.materials = some mats ∧
      dd.reinforcement = some reinf ∧
      getFloatD dims "length" 0 = .ok lengthV ∧
      getFloatD dims "breadth" 0 = .ok breadthV ∧
      getFloatD dims "depth" 0 = .ok thickness ∧
      getFloatD reinf "cover" 50 = .ok cover ∧
      getFloatD dims "column_size" 300 = .ok column_size ∧
      getFloatD reinf "bar_diameter" 16 = .ok bar_dia ∧
      getFloatD loads "axial_load" 0 = .ok axial ∧
      getFloatD loads "safe_bearing_capacity" 200 = .ok sbc ∧
      pyDiv (axial + lengthV * 1000 * (breadthV * 1000) / 1000000 * thickness / 1000 * CONCRETE_DENSITY)
        (lengthV * 1000 * (breadthV * 1000) / 1000000) = .ok bearing ∧
      pyDiv (lengthV * 1000 * (breadthV * 1000) / 1000000 * thickness / 1000 * CONCRETE_DENSITY)
        (lengthV * 1000 * (breadthV * 1000) / 1000000) = .ok swp ∧
      getFloatD reinf "spacing" 150 = .ok spacing ∧
      pyDiv (min (lengthV * 1000) (breadthV * 1000)) spacing = .ok nbq ∧
      c = footingChecks bearing sbc
            ((max (lengthV * 1000) (breadthV * 1000) - column_size) / 2 / 1000)
            thickness AstR ((pyTrunc nbq + 1 : ℤ) * (piQ * (bar_dia / 2) ^ 2))
            (min (lengthV * 1000) (breadthV * 1000)) spacing ows tau_p
            (0.25 * sq (gradeVal CONCRETE_GRADES (getRawD mats "concrete_grade" (.str "M20")) 20)) ∧
      s = footingSummary (lengthV * 1000) (breadthV * 1000) thickness
            (thickness - cover - bar_dia / 2)
            (lengthV * 1000 * (breadthV * 1000) / 1000000) bearing
            (footingCriticalMoment (bearing - swp) (lengthV * 1000) (breadthV * 1000)
              ((max (lengthV * 1000) (breadthV * 1000) - column_size) / 2 / 1000))
            (getRawD mats "concrete_grade" (.str "M20"))
            (getRawD mats "steel_grade" (.str "Fe500")) := by
  unfold footingBody at h
  simp only [bindM_ok_iff, pure_ok_iff] at h
  obtain ⟨dims, hdims, loads, hloads, mats, hmats, reinf, hreinf, lengthV, hlen,
    breadthV, hbr, thickness, hth, cover, hc, column_size, hcs, bar_dia, hbd,
    axial, hax, moment, hmo, sbc, hsbc, bearing, hbear, swp, hswp, Mu_nmm, hMu,
    AstR, hAstR, spacing, hsp, nbq, hnbq, ows, hows, tau_p, htp, hsc⟩ := h
  cases hsc
  exact ⟨dims, loads, mats, reinf, lengthV, breadthV, thickness, cover,
    column_size, bar_dia, axial, sbc, bearing, swp, AstR, spacing, nbq,
    ows, tau_p, req_ok hdims, req_ok hloads, req_ok hmats, req_ok hreinf, hlen,
    hbr, hth, hc, hcs, hbd, hax, hsbc, hbear, hswp, hsp, hnbq, rfl, rfl⟩

theorem mkResult_overallAndStatusOk (mt : String) (s : Obj) (cs : Checks) :
    overallAndStatusOk (.ok (mkResult mt s cs)) := by
  unfold overallAndStatusOk mkResult
  refine ⟨rfl, ?_⟩
  cases cs.all (fun c => c.2.pass) <;> simp

/-- C1: for every design input on which a member checker returns a result
without an error field, overall_compliance equals the conjunction of the
pass flags of every check in the checks mapping, and status is PASS exactly
when overall_compliance holds. This holds for all four member checkers. -/
theorem claim_C1 (sq : ℚ → ℚ) (dd : DesignData) :
    overallAndStatusOk (check_beam_compliance sq dd) ∧
    overallAndStatusOk (check_column_compliance sq dd) ∧
    overallAndStatusOk (check_slab_compliance sq dd) ∧
    overallAndStatusOk (check_footing_compliance sq dd) := by
  refine ⟨?_, ?_, ?_, ?_⟩
  · unfold check_beam_compliance
    cases beamBody sq dd with
    | ok sc => exact mkResult_overallAndStatusOk _ _ _
    | error e => trivial
  · unfold check_column_compliance
    cases columnBody sq dd with
    | ok sc => exact mkResult_overallAndStatusOk _ _ _
    | error e => trivial
  · unfold check_slab_compliance
    cases slabBody sq dd with
    | ok sc => exact mkResult_overallAndStatusOk _ _ _
    | error e => trivial
  · unfold check_footing_compliance
    cases footingBody sq dd with
    | ok sc => exact mkResult_overallAndStatusOk _ _ _
    | error e => trivial

/-- C5: for every input to the column checker that yields a result, the
tie_reinforcement check computes a tie diameter and a tie spacing but its
pass flag is the constant true, independent of every provided value. -/
theorem claim_C5 (sq : ℚ → ℚ) (dd : DesignData)
    (h : (check_column_compliance sq dd).isOk = true) :
    ∃ dia sp : ℚ,
      checkOf (check_column_compliance sq dd) "tie_reinforcement" =
        some ⟨[("minimum_tie_diameter", .num dia), ("maximum_tie_spacing", .num sp)],
              true, "Tie reinforcement requirements (IS 456 Cl. 26.5.3.2)"⟩ := by
  cases hb : columnBody sq dd with
  | error e =>
    rw [check_column_compliance, hb] at h
    exact absurd h (by simp [CheckerOutcome.isOk])
  | ok sc =>
    obtain ⟨s, c⟩ := sc
    obtain ⟨dims, loads, mats, reinf, width, depth, lengthV, cover, axial,
      moment, bar_dia, nb, slender, stp, hdims, hloads, hmats, hreinf, hw, hd,
      hlen, hc2, hax, hmo, hbd, hnb, hsl, hstp, hcEq, hsEq⟩ :=
      columnBody_shape sq dd s c hb
    refine ⟨round2 (max 6 (bar_dia / 4)),
            round2 (min (min width depth) (min (16 * bar_dia) 300)), ?_⟩
    rw [check_column_compliance.eq_def, hb]
    simp [checkOf, mkResult, hcEq, columnChecks, List.lookup]

/-- Witness for C5 at a concrete column design. -/
theorem claim_C5_witness :
    (check_column_compliance (fun _ => 2) colTie).isOk = true ∧
    (∃ dia sp : ℚ,
      checkOf (check_column_compliance (fun _ => 2) colTie) "tie_reinforcement" =
        some ⟨[("minimum_tie_diameter", .num dia), ("maximum_tie_spacing", .num sp)],
              true, "Tie reinforcement requirements (IS 456 Cl. 26.5.3.2)"⟩) :=
  ⟨by with_unfolding_all rfl, claim_C5 _ _ (by with_unfolding_all rfl)⟩

/-- C7: for every slab input that yields a result, the slab type in the
design summary resolves to one_way exactly when the computed aspect ratio
of the two plan dimensions is at least two, and the distribution_steel
check is present in the checks mapping exactly in that case. -/
theorem claim_C7 (sq : ℚ → ℚ) (dd : DesignData)
    (h : (check_slab_compliance sq dd).isOk = true) :
    ∃ dims, ∃ L B aspect : ℚ, dd.dimensions = some dims ∧
      getFloatD dims "length" 0 = .ok L ∧
      getFloatD dims "breadth" 0 = .ok B ∧
      pyDiv (max (L * 1000) (B * 1000)) (min (L * 1000) (B * 1000)) = .ok aspect ∧
      (summaryOf (check_slab_compliance sq dd) "slab_type" = some (.str "one_way") ↔
        2 ≤ aspect) ∧
      ((checkOf (check_slab_compliance sq dd) "distribution_steel").isSome = true ↔
        2 ≤ aspect) := by
  cases hb : slabBody sq dd with
  | error e =>
    rw [check_slab_compliance, hb] at h
    exact absurd h (by simp [CheckerOutcome.isOk])
  | ok sc =>
    obtain ⟨s, c⟩ := sc
    obtain ⟨dims, loads, mats, reinf, lengthV, breadthV, thickness, cover,
      bar_dia, dead, live, aspect, AstR, spacing, AstP, tau_v, dist, hdims,
      hloads, hmats, hreinf, hlen, hbr, hth, hc2, hbd, hdead, hlive, hasp, hsp,
      hAstP, hdist, hcEq, hsEq⟩ := slabBody_shape sq dd s c hb
    refine ⟨dims, lengthV, breadthV, aspect, hdims, hlen, hbr, hasp, ?_, ?_⟩
    · rw [check_slab_compliance.eq_def, hb]
      by_cases ha : 2 ≤ aspect
      · simp [summaryOf, mkResult, hsEq, slabSummary, List.lookup, ha]
      · simp [summaryOf, mkResult, hsEq, slabSummary, List.lookup, ha]
    · rw [check_slab_compliance.eq_def, hb]
      by_cases ha : 2 ≤ aspect
      · rw [if_pos ha] at hdist
        rw [slabDist, if_pos rfl] at hdist
        simp only [bindM_ok_iff, pure_ok_iff] at hdist
        obtain ⟨ds, hds, adp, hadp, hx⟩ := hdist
        subst hx
        simp [checkOf, mkResult, hcEq, slabChecks, List.lookup, ha]
      · rw [if_neg ha] at hdist
        rw [slabDist] at hdist
        simp only [if_neg (by decide : ¬ ("two_way" = "one_way")), pure_ok_iff] at hdist
        subst hdist
        simp [checkOf, mkResult, hcEq, slabChecks, List.lookup, ha]

/-- Witness for C7 at two concrete slab designs, with aspect ratios 2.5 and
1.5. -/
theorem claim_C7_witness :
    ((check_slab_compliance (fun _ => 2) slabAspect25).isOk = true ∧
      (∃ dims, ∃ L B aspect : ℚ, slabAspect25.dimensions = some dims ∧
        getFloatD dims "length" 0 = .ok L ∧
        getFloatD dims "breadth" 0 = .ok B ∧
        pyDiv (max (L * 1000) (B * 1000)) (min (L * 1000) (B * 1000)) = .ok aspect ∧
        (summaryOf (check_slab_compliance (fun _ => 2) slabAspect25) "slab_type" =
          some (.str "one_way") ↔ 2 ≤ aspect) ∧
        ((checkOf (check_slab_compliance (fun _ => 2) slabAspect25)
          "distribution_steel").isSome = true ↔ 2 ≤ aspect))) ∧
    ((check_slab_compliance (fun _ => 2) slabAspect15).isOk = true ∧
      (∃ dims, ∃ L B aspect : ℚ, slabAspect15.dimensions = some dims ∧
        getFloatD dims "length" 0 = .ok L ∧
        getFloatD dims "breadth" 0 = .ok B ∧
        pyDiv (max (L * 1000) (B * 1000)) (min (L * 1000) (B * 1000)) = .ok aspect ∧
        (summaryOf (check_slab_compliance (fun _ => 2) slabAspect15) "slab_type" =
          some (.str "one_way") ↔ 2 ≤ aspect) ∧
        ((checkOf (check_slab_compliance (fun _ => 2) slabAspect15)
          "distribution_steel").isSome = true ↔ 2 ≤ aspect))) :=
  ⟨⟨by with_unfolding_all rfl, claim_C7 _ _ (by with_unfolding_all rfl)⟩,
   ⟨by with_unfolding_all rfl, claim_C7 _ _ (by with_unfolding_all rfl)⟩⟩

theorem auto_unknown (hp : ℚ → ℚ) (mt : String) (d : DesignData)
    (h1 : mt ≠ "column") (h2 : mt ≠ "beam") (h3 : mt ≠ "slab") (h4 : mt ≠ "footing") :
    auto_calculate_loads hp mt d =
      .ok { d with building_parameters := some (setdefaultBuilding d.building_parameters),
                   wind_parameters := some (setdefaultWind d.wind_parameters) } := by
  rw [auto_calculate_loads]
  simp [h1, h2, h3, h4]
  rfl

/-- C8: for every design input whose lower-cased member_type is not one of
the four supported types, check_compliance returns the error object naming
exactly beam, column, slab and footing, with no checks present. -/
theorem claim_C8 (sq hp : ℚ → ℚ) (d : DesignData)
    (h : decide (d.member_type.toLower ∈
      (["beam", "column", "slab", "footing"] : List String)) = false) :
    check_compliance sq hp d =
      .unsupported ("Unsupported member type: " ++ d.member_type.toLower)
        ["beam", "column", "slab", "footing"] := by
  simp only [decide_eq_false_iff_not, List.mem_cons, not_or] at h
  obtain ⟨hbeam, hcol, hslab, hfoot, -⟩ := h
  have hres : ∃ r, resolveDesign hp d.member_type.toLower d = .ok r := by
    simp only [resolveDesign]
    split
    · exact ⟨_, auto_unknown hp _ d hcol hbeam hslab hfoot⟩
    · exact ⟨d, rfl⟩
  obtain ⟨r, hr⟩ := hres
  rw [check_compliance.eq_def, check_compliance_body]
  simp [hr, Bind.bind, Except.bind, hbeam, hcol, hslab, hfoot]
  rfl

/-- Witness for C8 at the unsupported member type Wall. -/
theorem claim_C8_witness :
    decide (wallDesign.member_type.toLower ∈
      (["beam", "column", "slab", "footing"] : List String)) = false ∧
    check_compliance (fun _ => 2) (fun q => q) wallDesign =
      .unsupported ("Unsupported member type: " ++ wallDesign.member_type.toLower)
        ["beam", "column", "slab", "footing"] :=
  ⟨by with_unfolding_all rfl, claim_C8 _ _ _ (by with_unfolding_all rfl)⟩

/-- C9: calculate_required_area_of_steel treats a moment strictly below
1000 as kNm and scales it by ten to the sixth before the branch
computation, leaves a moment of 1000 or more unchanged, so the same
physical moment passed in kNm and in Nmm yields the same result; the beam
checker always passes the moment pre-converted to Nmm, so whenever that
value is still below 1000 its required-steel figure is computed from the
doubly converted moment. -/
theorem claim_C9 :
    (∀ m fck fy b d : ℚ,
      (m < 1000 → calculate_required_area_of_steel m fck fy b d =
        requiredSteelNmm (m * 1000000) fck fy b d) ∧
      (1000 ≤ m → calculate_required_area_of_steel m fck fy b d =
        requiredSteelNmm m fck fy b d)) ∧
    (calculate_required_area_of_steel 500 20 415 300 550 =
      calculate_required_area_of_steel 500000000 20 415 300 550) ∧
    (∀ sq dd s c, beamBody sq dd = .ok (s, c) →
      ∃ Mu fck fy w de AstR : ℚ,
        calculate_required_area_of_steel (Mu * 1000000) fck fy w de = .ok AstR ∧
        (c.lookup "flexural_strength").map (fun cr => cr.vals.lookup "required_steel") =
          some (some (.num (round2 AstR))) ∧
        (Mu * 1000000 < 1000 →
          requiredSteelNmm (Mu * 1000000 * 1000000) fck fy w de = .ok AstR)) := by
  have hbranch : ∀ m fck fy b d : ℚ,
      (m < 1000 → calculate_required_area_of_steel m fck fy b d =
        requiredSteelNmm (m * 1000000) fck fy b d) ∧
      (1000 ≤ m → calculate_required_area_of_steel m fck fy b d =
        requiredSteelNmm m fck fy b d) := by
    intro m fck fy b d
    constructor
    · intro hm
      rw [calculate_required_area_of_steel, if_pos hm]
    · intro hm
      rw [calculate_required_area_of_steel, if_neg (not_lt.mpr hm)]
  refine ⟨hbranch, ?_, ?_⟩
  · rw [(hbranch 500 20 415 300 550).1 (by norm_num),
        (hbranch 500000000 20 415 300 550).2 (by norm_num)]
    norm_num
  · intro sq dd s c hb
    obtain ⟨dims, loads, mats, reinf, lengthV, width, depth, cover, bar_dia,
      dead, live, Mu, Vu, AstR, nb, mins, Vc, actual, ld, hdims, hloads, hmats,
      hreinf, hlen, hw, hd, hc, hbd, hdead, hlive, hMu, hVu, hAstR, hnb, hmins,
      hcEq, hsEq⟩ := beamBody_shape sq dd s c hb
    refine ⟨Mu, _, _, width, depth - cover - bar_dia / 2, AstR, hAstR, ?_, ?_⟩
    · subst hcEq
      simp [beamChecks, List.lookup]
    · intro hlt
      rw [(hbranch _ _ _ _ _).1 hlt] at hAstR
      exact hAstR

/-- Witness for C9: both unit branches at the same physical moment of 500
kNm. -/
theorem claim_C9_witness :
    ((500 : ℚ) < 1000 ∧
      calculate_required_area_of_steel 500 20 415 300 550 =
        requiredSteelNmm (500 * 1000000) 20 415 300 550) ∧
    ((1000 : ℚ) ≤ 500000000 ∧
      calculate_required_area_of_steel 500000000 20 415 300 550 =
        requiredSteelNmm 500000000 20 415 300 550) :=
  ⟨⟨by norm_num, (claim_C9.1 500 20 415 300 550).1 (by norm_num)⟩,
   ⟨by norm_num, (claim_C9.1 500000000 20 415 300 550).2 (by norm_num)⟩⟩

/-- C3 (amended): the orchestrator invokes the load calculator exactly when
the auto_calculate_loads flag is true, where an absent flag counts as true,
or the loads block is absent; provided loads reach the member checker
unchanged only when the flag is explicitly false and loads are present. -/
theorem claim_C3 (hp : ℚ → ℚ) (mt : String) (d : DesignData) :
    (∀ l, d.loads = some l → d.auto_calculate_loads = some false →
      resolveDesign hp mt d = .ok d) ∧
    (d.auto_calculate_loads.getD true = true →
      resolveDesign hp mt d = auto_calculate_loads hp mt d) ∧
    (d.loads = none → resolveDesign hp mt d = auto_calculate_loads hp mt d) := by
  refine ⟨?_, ?_, ?_⟩
  · intro l hl hflag
    simp [resolveDesign, hflag, hl]
  · intro hflag
    simp [resolveDesign, hflag]
  · intro hl
    simp [resolveDesign, hl]

/-- Counterexample to C3 as stated: this design provides a loads block and
does not request auto-calculation, yet the load-resolution step runs the
calculator and overwrites dead_load with the computed value, so the
provided loads do not reach the member checker unchanged. -/
theorem claim_C3_counterexample :
    c3beam.auto_calculate_loads = none ∧
    c3beam.loads = some [("dead_load", .num 2.5), ("live_load", .num 3)] ∧
    isOkE (resolveDesign (fun q => q) "beam" c3beam) = true ∧
    dget ((okD (resolveDesign (fun q => q) "beam" c3beam) c3beam).loads.getD [])
      "dead_load" = some (.numStr 25.65) ∧
    (PyVal.numStr 25.65 : PyVal) ≠ .num 2.5 :=
  ⟨rfl, rfl, by with_unfolding_all rfl, by with_unfolding_all rfl, by simp⟩

/-- Witness for C3: with the flag explicitly false the design passes
through unchanged, and with the flag absent the calculator is invoked. -/
theorem claim_C3_witness :
    (c3off.loads = some [("dead_load", .num 2.5), ("live_load", .num 3)] ∧
     c3off.auto_calculate_loads = some false ∧
     resolveDesign (fun q => q) "beam" c3off = .ok c3off) ∧
    (c3beam.auto_calculate_loads.getD true = true ∧
     resolveDesign (fun q => q) "beam" c3beam =
       auto_calculate_loads (fun q => q) "beam" c3beam) :=
  ⟨⟨rfl, rfl, (claim_C3 _ _ _).1 _ rfl rfl⟩, ⟨rfl, (claim_C3 _ _ _).2.1 rfl⟩⟩

/-- C4 (amended): for every column the critical axial load written by the
load calculator is the maximum of the three combinations of the aggregated
dead, live and wind loads, and the column branch of auto_calculate_loads
writes exactly that value into the loads block; for footings no factored
combination is written at all: the loads block holds the unfactored
vertical load, the unfactored dead and live loads and a wind moment, with
no axial_load key. -/
theorem claim_C4 (hp : ℚ → ℚ) :
    (∀ dims bd wd, isOkE (calculate_column_axial_load hp dims bd wd) = true →
      ∃ lr, calculate_column_axial_load hp dims bd wd = .ok lr ∧
        lr.load_combination_1 = 1.5 * (lr.total_dead_load + lr.total_live_load) ∧
        lr.load_combination_2 = 1.2 * (lr.total_dead_load + lr.total_live_load + lr.total_wind_load) ∧
        lr.load_combination_3 = 1.5 * (lr.total_dead_load + 0.25 * lr.total_live_load + lr.total_wind_load) ∧
        lr.critical_axial_load =
          max lr.load_combination_1 (max lr.load_combination_2 lr.load_combination_3)) ∧
    (∀ d, isOkE (auto_calculate_loads hp "column" d) = true →
      ∃ dims lr, d.dimensions = some dims ∧
        calculate_column_axial_load hp dims (resolveBuilding d.building_parameters)
          (some (resolveWind d.wind_parameters)) = .ok lr ∧
        dget ((okD (auto_calculate_loads hp "column" d) d).loads.getD []) "axial_load" =
          some (.numStr lr.critical_axial_load)) ∧
    (∀ d, isOkE (auto_calculate_loads hp "footing" d) = true →
      ∃ DL LL SW WM : ℚ,
        (okD (auto_calculate_loads hp "footing" d) d).loads =
          some [("vertical_load", .numStr (DL + LL + SW)), ("dead_load", .numStr DL),
                ("live_load", .numStr LL), ("wind_moment", .numStr WM)] ∧
        dget ((okD (auto_calculate_loads hp "footing" d) d).loads.getD [])
          "axial_load" = none) := by
  refine ⟨?_, ?_, ?_⟩
  · intro dims bd wd h
    cases ha : calculate_column_axial_load hp dims bd wd with
    | error e => rw [ha] at h; exact absurd h (by simp [isOkE])
    | ok lr =>
      refine ⟨lr, rfl, ?_⟩
      rw [calculate_column_axial_load] at ha
      simp only [bindM_ok_iff, pure_ok_iff] at ha
      obtain ⟨sw, hsw, swv, hswv, tsidl, htsidl, llpf, hllpf, th, hth, hlr⟩ := ha
      cases hlr
      exact ⟨rfl, rfl, rfl, rfl⟩
  · intro d h
    cases ha : auto_calculate_loads hp "column" d with
    | error e => rw [ha] at h; exact absurd h (by simp [isOkE])
    | ok d' =>
      rw [auto_calculate_loads] at ha
      rw [if_pos rfl] at ha
      simp only [bindM_ok_iff, pure_ok_iff] at ha
      obtain ⟨dims, hdims, lr, hlr, thR, hthR, heq⟩ := ha
      subst heq
      have hdims2 := req_ok hdims
      simp only at hdims2
      exact ⟨dims, lr, hdims2, hlr, by simp [okD, dget]⟩
  · intro d h
    cases ha : auto_calculate_loads hp "footing" d with
    | error e => rw [ha] at h; exact absurd h (by simp [isOkE])
    | ok d' =>
      rw [auto_calculate_loads] at ha
      rw [if_neg (by decide : ¬ ("footing" = "column")),
          if_neg (by decide : ¬ ("footing" = "beam")),
          if_neg (by decide : ¬ ("footing" = "slab")), if_pos rfl] at ha
      simp only [bindM_ok_iff, pure_ok_iff] at ha
      obtain ⟨llpf, hllpf, tsidl, htsidl, dims, hdims, fsw, hfsw, fswv, hfswv, heq⟩ := ha
      subst heq
      exact ⟨_, _, _, _, rfl, by simp [okD, dget]⟩

/-- Counterexample to C4 as stated: for this footing the calculator writes
an unfactored loads block whose four values are 221, 141, 40 and 52.272,
while the governing combination of the aggregated loads (with zero wind
load) is 271.5; no written value equals it and no factored axial load key
is present. -/
theorem claim_C4_counterexample :
    isOkE (auto_calculate_loads (fun q => q) "footing" c4footing) = true ∧
    (okD (auto_calculate_loads (fun q => q) "footing" c4footing) c4footing).loads =
      some [("vertical_load", .numStr 221), ("dead_load", .numStr 141),
            ("live_load", .numStr 40), ("wind_moment", .numStr 52.272)] ∧
    dget ((okD (auto_calculate_loads (fun q => q) "footing" c4footing) c4footing).loads.getD [])
      "axial_load" = none ∧
    max (1.5 * ((141 : ℚ) + 40)) (max (1.2 * (141 + 40 + 0)) (1.5 * (141 + 0.25 * 40 + 0))) = 271.5 ∧
    (221 : ℚ) ≠ 271.5 ∧ (141 : ℚ) ≠ 271.5 ∧ (40 : ℚ) ≠ 271.5 ∧ (52.272 : ℚ) ≠ 271.5 :=
  ⟨by with_unfolding_all rfl, by with_unfolding_all rfl, by with_unfolding_all rfl,
   by norm_num, by norm_num, by norm_num, by norm_num, by norm_num⟩

/-- Witness for C4 at a concrete column and a concrete footing. -/
theorem claim_C4_witness :
    (isOkE (calculate_column_axial_load (fun q => q) c4dims
        (resolveBuilding none) (some (resolveWind none))) = true ∧
     (∃ lr, calculate_column_axial_load (fun q => q) c4dims
          (resolveBuilding none) (some (resolveWind none)) = .ok lr ∧
        lr.load_combination_1 = 1.5 * (lr.total_dead_load + lr.total_live_load) ∧
        lr.load_combination_2 = 1.2 * (lr.total_dead_load + lr.total_live_load + lr.total_wind_load) ∧
        lr.load_combination_3 = 1.5 * (lr.total_dead_load + 0.25 * lr.total_live_load + lr.total_wind_load) ∧
        lr.critical_axial_load =
          max lr.load_combination_1 (max lr.load_combination_2 lr.load_combination_3))) ∧
    (isOkE (auto_calculate_loads (fun q => q) "column" c4column) = true ∧
     (∃ dims lr, c4column.dimensions = some dims ∧
        calculate_column_axial_load (fun q => q) dims
          (resolveBuilding c4column.building_parameters)
          (some (resolveWind c4column.wind_parameters)) = .ok lr ∧
        dget ((okD (auto_calculate_loads (fun q => q) "column" c4column) c4column).loads.getD [])
          "axial_load" = some (.numStr lr.critical_axial_load))) ∧
    (isOkE (auto_calculate_loads (fun q => q) "footing" c4footing) = true ∧
     (∃ DL LL SW WM : ℚ,
        (okD (auto_calculate_loads (fun q => q) "footing" c4footing) c4footing).loads =
          some [("vertical_load", .numStr (DL + LL + SW)), ("dead_load", .numStr DL),
                ("live_load", .numStr LL), ("wind_moment", .numStr WM)] ∧
        dget ((okD (auto_calculate_loads (fun q => q) "footing" c4footing) c4footing).loads.getD [])
          "axial_load" = none)) :=
  ⟨⟨by with_unfolding_all rfl,
    (claim_C4 (fun q => q)).1 c4dims (resolveBuilding none) (some (resolveWind none))
      (by with_unfolding_all rfl)⟩,
   ⟨by with_unfolding_all rfl,
    (claim_C4 (fun q => q)).2.1 c4column (by with_unfolding_all rfl)⟩,
   ⟨by with_unfolding_all rfl,
    (claim_C4 (fun q => q)).2.2 c4footing (by with_unfolding_all rfl)⟩⟩

/-- For a successful footing-checker run whose loads block lacks both the
axial_load and safe_bearing_capacity keys, the bearing-pressure check
compares only the footing self-weight divided by the footing area against
the default safe bearing capacity of 200. -/
theorem footingBearingShape (sq : ℚ → ℚ) (dd : DesignData) (l : Obj)
    (hok : (check_footing_compliance sq dd).isOk = true)
    (hl : dd.loads = some l)
    (hnoax : dget l "axial_load" = none)
    (hnosbc : dget l "safe_bearing_capacity" = none) :
    ∃ dims', ∃ lengthV breadthV thickness : ℚ,
      dd.dimensions = some dims' ∧
      getFloatD dims' "length" 0 = .ok lengthV ∧
      getFloatD dims' "breadth" 0 = .ok breadthV ∧
      getFloatD dims' "depth" 0 = .ok thickness ∧
      lengthV * 1000 * (breadthV * 1000) / 1000000 ≠ 0 ∧
      checkOf (check_footing_compliance sq dd) "bearing_pressure" =
        some ⟨[("bearing_pressure", .num (round2
                 ((0 + lengthV * 1000 * (breadthV * 1000) / 1000000 * thickness / 1000 *
                   CONCRETE_DENSITY) /
                  (lengthV * 1000 * (breadthV * 1000) / 1000000)))),
               ("safe_bearing_capacity", .num 200)],
              decide ((0 + lengthV * 1000 * (breadthV * 1000) / 1000000 * thickness / 1000 *
                   CONCRETE_DENSITY) /
                  (lengthV * 1000 * (breadthV * 1000) / 1000000) ≤ 200),
              "Soil bearing pressure check"⟩ := by
  cases hb : footingBody sq dd with
  | error e =>
    rw [check_footing_compliance, hb] at hok
    exact absurd hok (by simp [CheckerOutcome.isOk])
  | ok sc =>
    obtain ⟨s, c⟩ := sc
    obtain ⟨dims2, loads2, mats2, reinf2, lengthV, breadthV, thickness, cover,
      column_size, bar_dia, axial, sbc, bearing, swp, AstR, spacing, nbq, ows,
      tau_p, hdims2, hloads2, hmats2, hreinf2, hlen, hbr, hth, hc2, hcs, hbd,
      hax, hsbc, hbear, hswp, hsp, hnbq, hcEq, hsEq⟩ :=
      footingBody_shape sq dd s c hb
    have hl2 : loads2 = l := by
      rw [hl] at hloads2
      exact (Option.some.inj hloads2).symm
    subst hl2
    have hax0 : axial = 0 := by
      rw [getFloatD, hnoax] at hax
      exact (Except.ok.inj hax).symm
    have hsbc200 : sbc = 200 := by
      rw [getFloatD, hnosbc] at hsbc
      exact (Except.ok.inj hsbc).symm
    subst hax0
    subst hsbc200
    obtain ⟨hfa, hbearv⟩ := pyDiv_ok hbear
    subst hbearv
    refine ⟨dims2, lengthV, breadthV, thickness, hdims2, hlen, hbr, hth, hfa, ?_⟩
    rw [check_footing_compliance.eq_def, hb]
    simp [checkOf, mkResult, hcEq, footingChecks, List.lookup]

/-- C10: a footing loads block produced by the automatic load calculator
holds exactly the keys vertical_load, dead_load, live_load and wind_moment
and in particular no axial_load key, so the footing checker reads axial
load zero and its bearing-pressure check compares only the footing
self-weight divided by the footing area against the (defaulted) safe
bearing capacity. -/
theorem claim_C10 (sq hp : ℚ → ℚ) (d : DesignData)
    (h : isOkE (auto_calculate_loads hp "footing" d) = true)
    (hok : (check_footing_compliance sq (okD (auto_calculate_loads hp "footing" d) d)).isOk = true) :
    ∃ l, (okD (auto_calculate_loads hp "footing" d) d).loads = some l ∧
      l.map Prod.fst = ["vertical_load", "dead_load", "live_load", "wind_moment"] ∧
      dget l "axial_load" = none ∧
      dget l "safe_bearing_capacity" = none ∧
      (∃ dims', ∃ lengthV breadthV thickness : ℚ,
        (okD (auto_calculate_loads hp "footing" d) d).dimensions = some dims' ∧
        getFloatD dims' "length" 0 = .ok lengthV ∧
        getFloatD dims' "breadth" 0 = .ok breadthV ∧
        getFloatD dims' "depth" 0 = .ok thickness ∧
        lengthV * 1000 * (breadthV * 1000) / 1000000 ≠ 0 ∧
        checkOf (check_footing_compliance sq (okD (auto_calculate_loads hp "footing" d) d))
            "bearing_pressure" =
          some ⟨[("bearing_pressure", .num (round2
                   ((0 + lengthV * 1000 * (breadthV * 1000) / 1000000 * thickness / 1000 *
                     CONCRETE_DENSITY) /
                    (lengthV * 1000 * (breadthV * 1000) / 1000000)))),
                 ("safe_bearing_capacity", .num 200)],
                decide ((0 + lengthV * 1000 * (breadthV * 1000) / 1000000 * thickness / 1000 *
                     CONCRETE_DENSITY) /
                    (lengthV * 1000 * (breadthV * 1000) / 1000000) ≤ 200),
                "Soil bearing pressure check"⟩) := by
  cases ha : auto_calculate_loads hp "footing" d with
  | error e => rw [ha] at h; exact absurd h (by simp [isOkE])
  | ok d' =>
    rw [ha] at hok
    simp only [okD] at hok ⊢
    have hloads : ∃ DL LL SW WM : ℚ, d'.loads =
        some [("vertical_load", .numStr (DL + LL + SW)), ("dead_load", .numStr DL),
              ("live_load", .numStr LL), ("wind_moment", .numStr WM)] := by
      rw [auto_calculate_loads] at ha
      rw [if_neg (by decide : ¬ ("footing" = "column")),
          if_neg (by decide : ¬ ("footing" = "beam")),
          if_neg (by decide : ¬ ("footing" = "slab")), if_pos rfl] at ha
      simp only [bindM_ok_iff, pure_ok_iff] at ha
      obtain ⟨llpf, hllpf, tsidl, htsidl, dims, hdims, fsw, hfsw, fswv, hfswv, heq⟩ := ha
      subst heq
      exact ⟨_, _, _, _, rfl⟩
    obtain ⟨DL, LL, SW, WM, hloads⟩ := hloads
    refine ⟨_, hloads, by simp, by simp [dget], by simp [dget], ?_⟩
    exact footingBearingShape sq d' _ hok hloads (by simp [dget]) (by simp [dget])

/-- Witness for C10 at a concrete footing design. -/
theorem claim_C10_witness :
    isOkE (auto_calculate_loads (fun q => q) "footing" c10footing) = true ∧
    (check_footing_compliance (fun _ => 2)
      (okD (auto_calculate_loads (fun q => q) "footing" c10footing) c10footing)).isOk = true ∧
    (∃ l, (okD (auto_calculate_loads (fun q => q) "footing" c10footing) c10footing).loads = some l ∧
      l.map Prod.fst = ["vertical_load", "dead_load", "live_load", "wind_moment"] ∧
      dget l "axial_load" = none ∧
      dget l "safe_bearing_capacity" = none ∧
      (∃ dims', ∃ lengthV breadthV thickness : ℚ,
        (okD (auto_calculate_loads (fun q => q) "footing" c10footing) c10footing).dimensions = some dims' ∧
        getFloatD dims' "length" 0 = .ok lengthV ∧
        getFloatD dims' "breadth" 0 = .ok breadthV ∧
        getFloatD dims' "depth" 0 = .ok thickness ∧
        lengthV * 1000 * (breadthV * 1000) / 1000000 ≠ 0 ∧
        checkOf (check_footing_compliance (fun _ => 2)
            (okD (auto_calculate_loads (fun q => q) "footing" c10footing) c10footing))
            "bearing_pressure" =
          some ⟨[("bearing_pressure", .num (round2
                   ((0 + lengthV * 1000 * (breadthV * 1000) / 1000000 * thickness / 1000 *
                     CONCRETE_DENSITY) /
                    (lengthV * 1000 * (breadthV * 1000) / 1000000)))),
                 ("safe_bearing_capacity", .num 200)],
                decide ((0 + lengthV * 1000 * (breadthV * 1000) / 1000000 * thickness / 1000 *
                     CONCRETE_DENSITY) /
                    (lengthV * 1000 * (breadthV * 1000) / 1000000) ≤ 200),
                "Soil bearing pressure check"⟩)) :=
  ⟨by with_unfolding_all rfl, by with_unfolding_all rfl,
   claim_C10 (fun _ => 2) (fun q => q) c10footing (by with_unfolding_all rfl)
     (by with_unfolding_all rfl)⟩

/-- The beam checker error object is always tagged with member type beam. -/
theorem check_beam_tag (sq : ℚ → ℚ) (dd : DesignData) (e : Fault) (t : String)
    (h : check_beam_compliance sq dd = .err e t) : t = "beam" := by
  cases hb : beamBody sq dd with
  | ok sc =>
    rw [check_beam_compliance.eq_def, hb] at h
    exact absurd h (by simp)
  | error e2 =>
    rw [check_beam_compliance.eq_def, hb] at h
    injection h with h1 h2
    exact h2.symm

/-- The column checker error object is always tagged with member type column. -/
theorem check_column_tag (sq : ℚ → ℚ) (dd : DesignData) (e : Fault) (t : String)
    (h : check_column_compliance sq dd = .err e t) : t = "column" := by
  cases hb : columnBody sq dd with
  | ok sc =>
    rw [check_column_compliance.eq_def, hb] at h
    exact absurd h (by simp)
  | error e2 =>
    rw [check_column_compliance.eq_def, hb] at h
    injection h with h1 h2
    exact h2.symm

/-- The slab checker error object is always tagged with member type slab. -/
theorem check_slab_tag (sq : ℚ → ℚ) (dd : DesignData) (e : Fault) (t : String)
    (h : check_slab_compliance sq dd = .err e t) : t = "slab" := by
  cases hb : slabBody sq dd with
  | ok sc =>
    rw [check_slab_compliance.eq_def, hb] at h
    exact absurd h (by simp)
  | error e2 =>
    rw [check_slab_compliance.eq_def, hb] at h
    injection h with h1 h2
    exact h2.symm

/-- The footing checker error object is always tagged with member type footing. -/
theorem check_footing_tag (sq : ℚ → ℚ) (dd : DesignData) (e : Fault) (t : String)
    (h : check_footing_compliance sq dd = .err e t) : t = "footing" := by
  cases hb : footingBody sq dd with
  | ok sc =>
    rw [check_footing_compliance.eq_def, hb] at h
    exact absurd h (by simp)
  | error e2 =>
    rw [check_footing_compliance.eq_def, hb] at h
    injection h with h1 h2
    exact h2.symm

/-- The result tail preserves the member-type tag of checker error objects. -/
theorem finishResult_tagged (mt : String) (resolved : DesignData)
    (co : CheckerOutcome) (r : OrchOutcome) (h : finishResult mt resolved co = .ok r)
    (hco : ∀ e t, co = .err e t → t = mt) : orchErrTagged mt r := by
  cases co with
  | ok r' =>
    simp only [finishResult] at h
    by_cases hcs : resolved.load_calculations.isSome = true
    · rw [if_pos hcs] at h
      simp only [bindM_ok_iff, pure_ok_iff] at h
      obtain ⟨cl, hcl, hr⟩ := h
      subst hr
      trivial
    · rw [if_neg hcs] at h
      rw [pure_ok_iff] at h
      subst h
      trivial
  | err e t =>
    have ht := hco e t rfl
    simp only [finishResult] at h
    by_cases hcs : resolved.load_calculations.isSome = true
    · rw [if_pos hcs] at h
      simp only [bindM_ok_iff, pure_ok_iff] at h
      obtain ⟨cl, hcl, hr⟩ := h
      subst hr
      exact ht
    · rw [if_neg hcs] at h
      rw [pure_ok_iff] at h
      subst h
      exact ht

/-- Every error-shaped outcome of the orchestrator body is tagged with the
lower-cased member type. -/
theorem body_ok_tagged (sq hp : ℚ → ℚ) (d : DesignData) (r : OrchOutcome)
    (h : check_compliance_body sq hp d = .ok r) :
    orchErrTagged d.member_type.toLower r := by
  rw [check_compliance_body] at h
  simp only [bindM_ok_iff] at h
  obtain ⟨resolved, hres, h⟩ := h
  split at h
  next heq =>
    exact finishResult_tagged _ _ _ _ h
      (fun e t ht => (check_beam_tag sq resolved e t ht).trans heq.symm)
  next hne1 =>
    split at h
    next heq =>
      exact finishResult_tagged _ _ _ _ h
        (fun e t ht => (check_column_tag sq resolved e t ht).trans heq.symm)
    next hne2 =>
      split at h
      next heq =>
        exact finishResult_tagged _ _ _ _ h
          (fun e t ht => (check_slab_tag sq resolved e t ht).trans heq.symm)
      next hne3 =>
        split at h
        next heq =>
          exact finishResult_tagged _ _ _ _ h
            (fun e t ht => (check_footing_tag sq resolved e t ht).trans heq.symm)
        next hne4 =>
          rw [pure_ok_iff] at h
          subst h
          trivial

/-- C2: every internal fault raised inside a member checker or the
orchestrator is caught and converted into an error object tagged with the
member type and carrying no checks mapping (the error constructors hold no
check list at all); a successful checker result always carries the full
fixed check sequence for its member type; and a fault in the orchestrator
body is returned as the orchestrator error object rather than escaping. -/
theorem claim_C2 (sq hp : ℚ → ℚ) (d : DesignData) :
    checkerShapeOk "beam" [beamCheckNames] (check_beam_compliance sq d) ∧
    checkerShapeOk "column" [columnCheckNames] (check_column_compliance sq d) ∧
    checkerShapeOk "slab" [slabCheckNames, slabCheckNamesOneWay] (check_slab_compliance sq d) ∧
    checkerShapeOk "footing" [footingCheckNames] (check_footing_compliance sq d) ∧
    orchErrTagged d.member_type.toLower (check_compliance sq hp d) ∧
    (∀ e, check_compliance_body sq hp d = .error e →
      check_compliance sq hp d = .errOrch e d.member_type.toLower) := by
  refine ⟨?_, ?_, ?_, ?_, ?_, ?_⟩
  · cases hb : beamBody sq d with
    | error e => rw [check_beam_compliance.eq_def, hb]; exact rfl
    | ok sc =>
      obtain ⟨s, c⟩ := sc
      obtain ⟨dims, loads, mats, reinf, lengthV, width, depth, cover, bar_dia,
        dead, live, Mu, Vu, AstR, nb, mins, Vc, actual, ld, -, -, -, -, -, -, -,
        -, -, -, -, -, -, -, -, -, hcEq, hsEq⟩ := beamBody_shape sq d s c hb
      rw [check_beam_compliance.eq_def, hb]
      subst hcEq
      exact ⟨rfl, by simp [mkResult, beamChecks, beamCheckNames]⟩
  · cases hb : columnBody sq d with
    | error e => rw [check_column_compliance.eq_def, hb]; exact rfl
    | ok sc =>
      obtain ⟨s, c⟩ := sc
      obtain ⟨dims, loads, mats, reinf, width, depth, lengthV, cover, axial,
        moment, bar_dia, nb, slender, stp, -, -, -, -, -, -, -, -, -, -, -, -,
        -, -, hcEq, hsEq⟩ := columnBody_shape sq d s c hb
      rw [check_column_compliance.eq_def, hb]
      subst hcEq
      exact ⟨rfl, by simp [mkResult, columnChecks, columnCheckNames]⟩
  · cases hb : slabBody sq d with
    | error e => rw [check_slab_compliance.eq_def, hb]; exact rfl
    | ok sc =>
      obtain ⟨s, c⟩ := sc
      obtain ⟨dims, loads, mats, reinf, lengthV, breadthV, thickness, cover,
        bar_dia, dead, live, aspect, AstR, spacing, AstP, tau_v, dist, -, -, -,
        -, -, -, -, -, -, -, -, -, -, -, -, hcEq, hsEq⟩ := slabBody_shape sq d s c hb
      rw [check_slab_compliance.eq_def, hb]
      subst hcEq
      refine ⟨rfl, ?_⟩
      cases dist with
      | none => simp [mkResult, slabChecks, slabCheckNames]
      | some p => simp [mkResult, slabChecks, slabCheckNames, slabCheckNamesOneWay]
  · cases hb : footingBody sq d with
    | error e => rw [check_footing_compliance.eq_def, hb]; exact rfl
    | ok sc =>
      obtain ⟨s, c⟩ := sc
      obtain ⟨dims2, loads2, mats2, reinf2, lengthV, breadthV, thickness, cover,
        column_size, bar_dia, axial, sbc, bearing, swp, AstR, spacing, nbq, ows,
        tau_p, -, -, -, -, -, -, -, -, -, -, -, -, -, -, -, -, hcEq, hsEq⟩ :=
        footingBody_shape sq d s c hb
      rw [check_footing_compliance.eq_def, hb]
      subst hcEq
      refine ⟨rfl, ?_⟩
      cases ows with
      | none => simp [mkResult, footingChecks, footingCheckNames]
      | some p => simp [mkResult, footingChecks, footingCheckNames]
  · cases hbod : check_compliance_body sq hp d with
    | ok r =>
      rw [check_compliance.eq_def, hbod]
      exact body_ok_tagged sq hp d r hbod
    | error e =>
      rw [check_compliance.eq_def, hbod]
      exact rfl
  · intro e he
    rw [check_compliance.eq_def, he]

/-- Witness for C2: a concrete faulting run converted to the orchestrator
error object. -/
theorem claim_C2_witness :
    check_compliance_body (fun _ => 2) (fun q => q) faultyColumn =
      .error (.keyError "dimensions") ∧
    check_compliance (fun _ => 2) (fun q => q) faultyColumn =
      .errOrch (.keyError "dimensions") faultyColumn.member_type.toLower :=
  ⟨by with_unfolding_all rfl,
   (claim_C2 (fun _ => 2) (fun q => q) faultyColumn).2.2.2.2.2 _
     (by with_unfolding_all rfl)⟩

/-- Updating a key makes it readable. -/
theorem dget_dset_self (o : Obj) (k : String) (v : PyVal) :
    dget (dset o k v) k = some v := by
  induction o with
  | nil => simp [dget, dset, List.find?]
  | cons p rest ih =>
    by_cases hp : (p.1 == k) = true
    · simp [dset, hp, dget, List.find?]
    · simp only [dset, hp, if_false]
      simp only [dget, List.find?, hp] at ih ⊢
      exact ih

/-- Updating one key leaves every other key unchanged. -/
theorem dget_dset_ne (o : Obj) (k k' : String) (v : PyVal) (h : k' ≠ k) :
    dget (dset o k v) k' = dget o k' := by
  induction o with
  | nil =>
    simp [dget, dset, List.find?, show (k == k') = false from by
      simp [Ne.symm h]]
  | cons p rest ih =>
    by_cases hp : (p.1 == k) = true
    · have hkk : (k == k') = false := by simp [Ne.symm h]
      have hpk : (p.1 == k') = false := by
        have := beq_iff_eq.mp hp
        simp [this, Ne.symm h]
      simp [dset, hp, dget, List.find?, hkk, hpk]
    · simp only [dset, hp, if_false]
      by_cases hq : (p.1 == k') = true
      · simp [dget, List.find?, hq]
      · simp only [dget, List.find?, hq] at ih ⊢
        exact ih

/-- Float extraction of an untouched key is unchanged by an update. -/
theorem getFloatD_dset_ne (o : Obj) (k k' : String) (v : PyVal) (dflt : ℚ)
    (h : k' ≠ k) :
    getFloatD (dset o k v) k' dflt = getFloatD o k' dflt := by
  simp only [getFloatD, dget_dset_ne o k k' v h]

/-- Truncation of a natural number is itself. -/
theorem pyTrunc_natCast (n : ℕ) : pyTrunc (n : ℚ) = (n : ℤ) := by
  unfold pyTrunc
  rw [if_pos (by positivity)]
  exact_mod_cast Int.floor_natCast n

/-- Integer extraction of a freshly written natural-number value. -/
theorem getIntD_dset_num (o : Obj) (k : String) (n : ℕ) (dflt : ℤ) :
    getIntD (dset o k (.num n)) k dflt = .ok (n : ℤ) := by
  simp only [getIntD, dget_dset_self, pyInt, pyTrunc_natCast]

/-- Characterisation of a successful minimum-steel computation. -/
theorem check_minimum_steel_ok {A b d fy : ℚ} {m : Bool × ℚ}
    (h : check_minimum_steel A b d fy = .ok m) :
    ∃ r, pyDiv 0.85 fy = .ok r ∧ m = (decide (r * b * d ≤ A), r * b * d) := by
  rw [check_minimum_steel] at h
  simp only [bindM_ok_iff, pure_ok_iff] at h
  obtain ⟨r, hr, hm⟩ := h
  exact ⟨r, hr, hm.symm⟩

/-- C6: for two beam-checker inputs that differ only in the provided bar
count, with the larger count every steel-adequacy check (provided steel
against a required minimum: the flexural-strength and minimum-steel checks)
that passed with the smaller count still passes. -/
theorem claim_C6 (sq : ℚ → ℚ) (dd : DesignData) (n1 n2 : ℕ) (hn : n1 ≤ n2)
    (h1 : (check_beam_compliance sq (setNumBars dd n1)).isOk = true)
    (h2 : (check_beam_compliance sq (setNumBars dd n2)).isOk = true) :
    (passOf (check_beam_compliance sq (setNumBars dd n1)) "flexural_strength" = some true →
     passOf (check_beam_compliance sq (setNumBars dd n2)) "flexural_strength" = some true) ∧
    (passOf (check_beam_compliance sq (setNumBars dd n1)) "minimum_steel" = some true →
     passOf (check_beam_compliance sq (setNumBars dd n2)) "minimum_steel" = some true) := by
  cases hb1 : beamBody sq (setNumBars dd n1) with
  | error e =>
    rw [check_beam_compliance.eq_def, hb1] at h1
    exact absurd h1 (by simp [CheckerOutcome.isOk])
  | ok sc1 =>
  cases hb2 : beamBody sq (setNumBars dd n2) with
  | error e =>
    rw [check_beam_compliance.eq_def, hb2] at h2
    exact absurd h2 (by simp [CheckerOutcome.isOk])
  | ok sc2 =>
    obtain ⟨s1, c1⟩ := sc1
    obtain ⟨s2, c2⟩ := sc2
    obtain ⟨dims1, loads1, mats1, reinf1, lengthV1, width1, depth1, cover1,
      bar_dia1, dead1, live1, Mu1, Vu1, AstR1, nb1, mins1, Vc1, actual1, ld1,
      hdims1, hloads1, hmats1, hreinf1, hlen1, hw1, hd1, hc1, hbd1, hdead1,
      hlive1, hMu1, hVu1, hAstR1, hnb1, hmins1, hcEq1, hsEq1⟩ :=
      beamBody_shape sq _ s1 c1 hb1
    obtain ⟨dims2, loads2, mats2, reinf2, lengthV2, width2, depth2, cover2,
      bar_dia2, dead2, live2, Mu2, Vu2, AstR2, nb2, mins2, Vc2, actual2, ld2,
      hdims2, hloads2, hmats2, hreinf2, hlen2, hw2, hd2, hc2, hbd2, hdead2,
      hlive2, hMu2, hVu2, hAstR2, hnb2, hmins2, hcEq2, hsEq2⟩ :=
      beamBody_shape sq _ s2 c2 hb2
    simp only [setNumBars] at hdims1 hdims2 hloads1 hloads2 hmats1 hmats2 hreinf1 hreinf2
    obtain rfl : reinf1 = dset (dd.reinforcement.getD []) "num_bars" (.num n1) :=
      (Option.some.inj hreinf1).symm
    obtain rfl : reinf2 = dset (dd.reinforcement.getD []) "num_bars" (.num n2) :=
      (Option.some.inj hreinf2).symm
    obtain rfl : dims2 = dims1 := Option.some.inj (hdims2.symm.trans hdims1)
    obtain rfl : loads2 = loads1 := Option.some.inj (hloads2.symm.trans hloads1)
    obtain rfl : mats2 = mats1 := Option.some.inj (hmats2.symm.trans hmats1)
    obtain rfl : lengthV2 = lengthV1 := Except.ok.inj (hlen1.symm.trans hlen2).symm
    obtain rfl : width2 = width1 := Except.ok.inj (hw1.symm.trans hw2).symm
    obtain rfl : depth2 = depth1 := Except.ok.inj (hd1.symm.trans hd2).symm
    rw [getFloatD_dset_ne _ _ _ _ _ (by decide)] at hc1 hc2
    rw [getFloatD_dset_ne _ _ _ _ _ (by decide)] at hbd1 hbd2
    obtain rfl : cover2 = cover1 := Except.ok.inj (hc1.symm.trans hc2).symm
    obtain rfl : bar_dia2 = bar_dia1 := Except.ok.inj (hbd1.symm.trans hbd2).symm
    obtain rfl : dead2 = dead1 := Except.ok.inj (hdead1.symm.trans hdead2).symm
    obtain rfl : live2 = live1 := Except.ok.inj (hlive1.symm.trans hlive2).symm
    rw [getIntD_dset_num] at hnb1 hnb2
    obtain rfl : nb1 = (n1 : ℤ) := (Except.ok.inj hnb1).symm
    obtain rfl : nb2 = (n2 : ℤ) := (Except.ok.inj hnb2).symm
    obtain rfl : Mu2 = Mu1 := Except.ok.inj (hMu1.symm.trans hMu2).symm
    obtain rfl : AstR2 = AstR1 := Except.ok.inj (hAstR1.symm.trans hAstR2).symm
    obtain ⟨r1, hr1, hm1⟩ := check_minimum_steel_ok hmins1
    obtain ⟨r2, hr2, hm2⟩ := check_minimum_steel_ok hmins2
    obtain rfl : r2 = r1 := Except.ok.inj (hr1.symm.trans hr2).symm
    subst hcEq1
    subst hcEq2
    constructor
    · simp only [passOf, check_beam_compliance.eq_def, hb1, hb2, checkOf, mkResult]
      simp [beamChecks, List.lookup]
      intro hpass
      refine hpass.trans (mul_le_mul_of_nonneg_right ?_ ?_)
      · exact_mod_cast hn
      · exact mul_nonneg (by norm_num [piQ]) (sq_nonneg _)
    · simp only [passOf, check_beam_compliance.eq_def, hb1, hb2, checkOf, mkResult]
      simp [beamChecks, List.lookup, hm1, hm2]
      intro hpass
      refine hpass.trans (mul_le_mul_of_nonneg_right ?_ ?_)
      · exact_mod_cast hn
      · exact mul_nonneg (by norm_num [piQ]) (sq_nonneg _)

/-- Witness for C6 at bar counts 2 and 4 on a concrete beam design. -/
theorem claim_C6_witness :
    2 ≤ 4 ∧
    (check_beam_compliance (fun _ => 4) (setNumBars c6beam 2)).isOk = true ∧
    (check_beam_compliance (fun _ => 4) (setNumBars c6beam 4)).isOk = true ∧
    ((passOf (check_beam_compliance (fun _ => 4) (setNumBars c6beam 2))
        "flexural_strength" = some true →
      passOf (check_beam_compliance (fun _ => 4) (setNumBars c6beam 4))
        "flexural_strength" = some true) ∧
     (passOf (check_beam_compliance (fun _ => 4) (setNumBars c6beam 2))
        "minimum_steel" = some true →
      passOf (check_beam_compliance (fun _ => 4) (setNumBars c6beam 4))
        "minimum_steel" = some true)) :=
  ⟨by norm_num, by with_unfolding_all rfl, by with_unfolding_all rfl,
   claim_C6 (fun _ => 4) c6beam 2 4 (by norm_num)
     (by with_unfolding_all rfl) (by with_unfolding_all rfl)⟩

end SBC

